import Mathlib

/-!
Verification of the Fusefy document-to-record ingestion pipeline.

The definitions below are a shallow embedding of the Python source files
`lambda_function.py` (the hash + S3-URL ingestion entry point) and
`lambda_function_for_api.py` (the raw-file-upload ingestion entry point).
Python dicts are modelled as association lists of `String × Val`,
Python strings as Lean `String` (character-for-character; Python slicing and
`in` operate on characters, mirrored here via `String.data`), and external
collaborators (the OpenAI calls, the S3 object store, the DynamoDB scans,
SHA-256) as explicit oracle parameters: `Option` results model calls that can
raise, a `Bool` models whether a store scan succeeds, and hashing is an
abstract function parameter.  Machine floats are modelled by the rational
value of their shortest decimal representation (which is exactly the value
`Decimal(str(x))` denotes in the source).
-/

/-- A JSON-ish Python value as it flows through the pipeline:
strings, ints, floats (modelled by their decimal value), `Decimal`s,
booleans, `None`, lists and dicts (association lists, insertion ordered,
mirroring Python dict semantics). -/
inductive Val where
  | vStr : String → Val
  | vInt : Int → Val
  | vFloat : Rat → Val
  | vDec : Rat → Val
  | vBool : Bool → Val
  | vNull : Val
  | vList : List Val → Val
  | vDict : List (String × Val) → Val

/-- A Python dict: an insertion-ordered association list. -/
abbrev Item := List (String × Val)

/-- Python `d.get(k)` / `d[k]`: first binding of the key (dicts built by the
pipeline never hold duplicate keys, so "first" is exact). -/
def dget (d : Item) (k : String) : Option Val :=
  (d.find? (fun p => p.1 == k)).map Prod.snd

/-- Python `d[k] = v`: overwrite the binding in place when the key exists,
otherwise append the new binding at the end (Python dict insertion order). -/
def dset (d : Item) (k : String) (v : Val) : Item :=
  if d.any (fun p => p.1 == k) then
    d.map (fun p => if p.1 == k then (k, v) else p)
  else
    d ++ [(k, v)]

/-- Python `del d[k]` (a no-op when the key is absent, matching the guarded
`if field in usecase_data: del usecase_data[field]` in the source). -/
def ddel (d : Item) (k : String) : Item :=
  d.filter (fun p => ! (p.1 == k))

mutual
/-- `convert_floats_to_decimal_for_dynamodb` (both lambda files):
recursively replace every float leaf by `Decimal(str(x))`, i.e. by the
numerically equal decimal value, leaving every other leaf untouched. -/
def convFloats : Val → Val
  | .vStr s => .vStr s
  | .vInt n => .vInt n
  | .vFloat q => .vDec q
  | .vDec q => .vDec q
  | .vBool b => .vBool b
  | .vNull => .vNull
  | .vList xs => .vList (convList xs)
  | .vDict kvs => .vDict (convDict kvs)

/-- `convert_floats_to_decimal_for_dynamodb` on a Python list. -/
def convList : List Val → List Val
  | [] => []
  | v :: t => convFloats v :: convList t

/-- `convert_floats_to_decimal_for_dynamodb` on a Python dict. -/
def convDict : List (String × Val) → List (String × Val)
  | [] => []
  | (k, v) :: t => (k, convFloats v) :: convDict t
end

mutual
/-- Python `str(x)` on the values the pipeline feeds into `",".join` and
`", ".join`.  Scalars follow CPython; rationals are rendered as
`num/den` (the exact decimal layout of Python's float/Decimal rendering is
not needed by any claim); elements of containers are rendered with `str`
rather than Python's `repr` (no claim depends on container rendering). -/
def pyStr : Val → String
  | .vStr s => s
  | .vInt n => toString n
  | .vFloat q => toString q.num ++ (if q.den == 1 then "" else "/" ++ toString q.den)
  | .vDec q => toString q.num ++ (if q.den == 1 then "" else "/" ++ toString q.den)
  | .vBool b => if b then "True" else "False"
  | .vNull => "None"
  | .vList xs => "[" ++ pyStrList xs ++ "]"
  | .vDict kvs => "dict(" ++ pyStrDict kvs ++ ")"

/-- Comma-joined rendering of list elements. -/
def pyStrList : List Val → String
  | [] => ""
  | [v] => pyStr v
  | v :: t => pyStr v ++ ", " ++ pyStrList t

/-- Comma-joined rendering of dict entries. -/
def pyStrDict : List (String × Val) → String
  | [] => ""
  | [(k, v)] => k ++ ": " ++ pyStr v
  | (k, v) :: t => k ++ ": " ++ pyStr v ++ ", " ++ pyStrDict t
end

/-- Python `needle in hay` on strings, as characters: `needle` occurs as a
contiguous substring of `hay`. -/
def containsSub (needle : List Char) : List Char → Bool
  | [] => needle.isEmpty
  | c :: t => needle.isPrefixOf (c :: t) || containsSub needle t

/-- Python `needle in hay` for `String`s. -/
def pyIn (needle hay : String) : Bool :=
  containsSub needle.data hay.data

/-- Python `s.lower()` (the source only lowercases ASCII keyword text). -/
def pyLower (s : String) : String :=
  String.mk (s.data.map Char.toLower)

/-- Python `text.split()` (no separator): split on runs of whitespace,
dropping empty pieces.  `acc` carries the current word reversed. -/
def pySplitWsAux : List Char → List Char → List (List Char)
  | [], acc => if acc.isEmpty then [] else [acc.reverse]
  | c :: t, acc =>
    if c.isWhitespace then
      if acc.isEmpty then pySplitWsAux t [] else acc.reverse :: pySplitWsAux t []
    else
      pySplitWsAux t (c :: acc)

/-- Python `text.split()` on a `String`. -/
def pySplitWs (s : String) : List (List Char) :=
  pySplitWsAux s.data []

/-- `' '.join(text.split())` — the whitespace normalisation applied to every
extracted document text before hashing and before prompting
(`extract_text_from_s3_file` and `extract_text_from_uploaded_file`). -/
def normalize_text (t : String) : String :=
  String.mk (List.intercalate [' '] (pySplitWs t))

/-- The content hash of a document text: SHA-256 hex digest of the UTF-8
encoding of the normalised text (`extract_text_from_uploaded_file`).
SHA-256 itself is an external primitive, modelled by the abstract
function `H`. -/
def content_hash (H : String → String) (t : String) : String :=
  H (normalize_text t)

/-- ML keyword set of `determine_ai_category_based_on_data_fallback`
(identical in both lambda files). -/
def ml_keywords : List String :=
  ["predict", "prediction", "classify", "classification", "cluster",
   "regression", "forecast", "anomaly detection", "pattern recognition",
   "supervised learning", "unsupervised learning", "recommendation",
   "feature engineering", "model training", "algorithm",
   "neural network", "deep learning", "random forest", "svm",
   "decision tree", "ensemble", "xgboost", "logistic regression",
   "clustering", "optimization", "data mining"]

/-- AI-workflow keyword set of `determine_ai_category_based_on_data_fallback`. -/
def workflow_keywords : List String :=
  ["chatbot", "rag", "retrieval augmented generation",
   "summarization", "summarize", "dialogue", "conversation",
   "workflow", "approval process", "single shot", "few shot",
   "content creation", "form processing", "automation step"]

/-- Agentic-AI keyword set of `determine_ai_category_based_on_data_fallback`. -/
def agentic_keywords : List String :=
  ["agent", "autonomous", "multi-agent", "collaboration",
   "orchestration", "decision-making", "reasoning", "goal-oriented",
   "workflow automation", "adaptive planning",
   "self-improving", "tool use", "api orchestration", "planner",
   "mcp", "model context protocol"]

/-- `sum(1 for keyword in kws if keyword in text_lower)`: the number of
keywords of the set that occur in the lowercased text. -/
def keyword_score (kws : List String) (text_lower : String) : Nat :=
  (kws.filter (fun k => pyIn k text_lower)).length

/-- `determine_ai_category_based_on_data_fallback` (both lambda files):
keyword-scoring fallback; the strictly highest of the three scores wins,
everything else (ties, all-zero) falls back to "AI Workflow Agents". -/
def determine_ai_category_based_on_data_fallback (document_text : String) : String :=
  let text_lower := pyLower document_text
  let ml_score := keyword_score ml_keywords text_lower
  let workflow_score := keyword_score workflow_keywords text_lower
  let agentic_score := keyword_score agentic_keywords text_lower
  if ml_score > workflow_score ∧ ml_score > agentic_score then "Machine Learning"
  else if workflow_score > ml_score ∧ workflow_score > agentic_score then "AI Workflow Agents"
  else if agentic_score > ml_score ∧ agentic_score > workflow_score then "Agentic AI"
  else "AI Workflow Agents"

/-- Category parsing of the LLM response in
`determine_ai_category_and_approach_with_llm`: substring containment against
the label literals in fixed priority order, defaulting to
"AI Workflow Agents". -/
def parse_category (response : String) : String :=
  if pyIn "Machine Learning" response then "Machine Learning"
  else if pyIn "Agentic AI" response then "Agentic AI"
  else if pyIn "AI Workflow Agents" response then "AI Workflow Agents"
  else "AI Workflow Agents"

/-- Approach parsing of the LLM response in
`determine_ai_category_and_approach_with_llm`. -/
def parse_approach (response : String) : String :=
  if pyIn "Next.js + ADK + MCP" response then "MCP-Oriented Orchestration"
  else if pyIn "Next.js + ADK" response then "Next.js with ADK"
  else if pyIn "Custom AI Stack" response then "Custom AI Stack"
  else "Custom AI Stack"

/-- Keyword-based approach detection on the fallback path of
`determine_ai_category_and_approach_with_llm`. -/
def fallback_approach (document_text : String) : String :=
  let text_lower := pyLower document_text
  if pyIn "mcp" text_lower ∨ pyIn "multi-agent" text_lower ∨ pyIn "orchestration" text_lower then
    "MCP-Oriented Orchestration"
  else if pyIn "next.js" text_lower ∧ pyIn "adk" text_lower then
    "Next.js with ADK"
  else
    "Custom AI Stack"

/-- `determine_ai_category_and_approach_with_llm` (both lambda files).
`llm` is the result of the `call_llm` collaborator: `some response` when the
call returns, `none` when it raises, in which case the keyword fallback runs.
Returns `(category, approach)`. -/
def determine_ai_category_and_approach_with_llm
    (document_text : String) (llm : Option String) : String × String :=
  match llm with
  | some response => (parse_category response, parse_approach response)
  | none =>
    (determine_ai_category_based_on_data_fallback document_text,
     fallback_approach document_text)

/-- The provider scan list of `generate_usecase_with_llm_focused`
(both lambda files), in its source order — the loop breaks on the first
entry of THIS list found in the document, not on the earliest occurrence
inside the text. -/
def cloud_providers : List String :=
  ["AWS", "Azure", "GCP", "Google Cloud", "Google Cloud Platform",
   "Amazon Web Services", "Microsoft Azure"]

/-- Alias normalisation of the found provider in
`generate_usecase_with_llm_focused`. -/
def normalize_provider (p : String) : String :=
  if p == "Google Cloud" || p == "Google Cloud Platform" then "GCP"
  else if p == "Amazon Web Services" then "AWS"
  else if p == "Microsoft Azure" then "Azure"
  else p

/-- The cloud-provider determination of `generate_usecase_with_llm_focused`:
first entry of `cloud_providers` occurring case-insensitively in the
document wins (normalised); the caller-supplied `cloud_provider` argument is
used only when no entry occurs. -/
def determine_cloud_provider (document_text cloud_provider : String) : String :=
  match cloud_providers.find? (fun p => pyIn (pyLower p) (pyLower document_text)) with
  | some p => normalize_provider p
  | none => cloud_provider

/-- Index of the first occurrence of `needle` inside `hay`
(case handled by the caller); `none` when it does not occur. -/
def firstOccIdx (needle hay : List Char) : Option Nat :=
  (List.range (hay.length + 1)).find? (fun i => needle.isPrefixOf (hay.drop i))

/-- The provider selection rule as the claim states it ("the first known
provider name occurring in the text"): among the known provider names, the
one whose first case-insensitive occurrence in the text is earliest
(ties broken by scan order), normalised to its canonical alias. -/
def first_occurring_provider (document_text : String) : Option String :=
  let hay := (pyLower document_text).data
  let occs := cloud_providers.filterMap (fun p =>
    (firstOccIdx (pyLower p).data hay).map (fun i => (p, i)))
  match occs with
  | [] => none
  | o :: os =>
    some (normalize_provider
      (os.foldl (fun best q => if q.2 < best.2 then q else best) o).1)

/-- The decimal digit character for `d < 10`. -/
def digitChar10 (d : Nat) : Char :=
  match d with
  | 0 => '0' | 1 => '1' | 2 => '2' | 3 => '3' | 4 => '4'
  | 5 => '5' | 6 => '6' | 7 => '7' | 8 => '8' | _ => '9'

/-- Little-endian base-10 digits of `n`, with explicit fuel so that the
definition is structurally recursive (the fuel `n` itself always suffices). -/
def digitsRev (fuel n : Nat) : List Nat :=
  match fuel with
  | 0 => []
  | fuel + 1 => if n = 0 then [] else n % 10 :: digitsRev fuel (n / 10)

/-- The decimal numeral of `n`, most significant digit first
(Python `str(n)` for a non-negative int). -/
def natDigits (n : Nat) : List Char :=
  if n = 0 then ['0'] else ((digitsRev n n).map digitChar10).reverse

/-- Python `str(n)` for a non-negative int, as a `String`. -/
def natRepr (n : Nat) : String :=
  String.mk (natDigits n)

/-- Python `f"{n:03d}"` for a non-negative int: the decimal numeral
zero-padded on the left to a minimum width of 3. -/
def pad3 (n : Nat) : String :=
  String.mk (List.replicate (3 - (natDigits n).length) '0' ++ natDigits n)

/-- Python `int(s)` guarded by `s.isdigit()`: `some` of the value when `s` is
a non-empty all-digit string, `none` otherwise. -/
def digitsToNat? (s : List Char) : Option Nat :=
  if ¬ s.isEmpty ∧ s.all (fun c => c.isDigit) then
    some (s.foldl (fun a c => 10 * a + (c.toNat - 48)) 0)
  else none

/-- The per-item step of `generate_sequential_id`: when the scanned id starts
with the prefix and the rest (`id_str[prefix_len:]`) is a non-empty digit
string, its integer value, else `none` (non-numeric suffixes are skipped). -/
def parse_suffix (pfx id_str : String) : Option Nat :=
  if pfx.data.isPrefixOf id_str.data then
    digitsToNat? (id_str.data.drop pfx.length)
  else none

/-- The `max_num` loop of `generate_sequential_id`: fold over the scanned ids,
keeping the largest parsed suffix seen so far, starting from 0. -/
def scanMaxNum (pfx : String) (ids : List String) : Nat :=
  ids.foldl (fun m s =>
    match parse_suffix pfx s with
    | some n => if m < n then n else m
    | none => m) 0

/-- `generate_sequential_id` (identical in both lambda files).
`scan` is the paginated table scan of ids beginning with the prefix:
`some ids` when it succeeds, `none` when it raises, in which case the
function falls back to `prefix + int(datetime.now().timestamp())`,
modelled by the Unix timestamp `now`. -/
def generate_sequential_id (scan : Option (List String)) (pfx : String) (now : Nat) : String :=
  match scan with
  | some ids => pfx ++ pad3 (scanMaxNum pfx ids + 1)
  | none => pfx ++ natRepr now

/-- The maximum suffix as the claim states it: the maximum unsigned-integer
suffix over all scanned ids beginning with the prefix, non-numeric suffixes
skipped, the empty match set treated as maximum 0. -/
def maxSuffix (pfx : String) (ids : List String) : Nat :=
  (ids.filterMap (parse_suffix pfx)).foldr Nat.max 0

/-- `is_duplicate_document_hash` (`lambda_function.py`): false on a falsy
hash; otherwise scan the table for items whose `documentHash` equals the
hash (`scan` is `some` of the matching items when the scan succeeds, `none`
when it raises — a failure is swallowed and reported as "not a duplicate"). -/
def is_duplicate_document_hash (document_hash : String) (scan : Option (List Item)) : Bool :=
  if document_hash == "" then false
  else
    match scan with
    | some items => ! items.isEmpty
    | none => false

/-- The category-specific default metric sets of `enhance_usecase_data` in
`lambda_function.py`. -/
def default_metrics (ai_category : String) : List Val :=
  if ai_category == "AI Workflow Agents" then
    [.vDict [("metricName", .vStr "Response Relevance"), ("metricDescription", .vStr "Measure of how well the agent follows the defined workflow steps"), ("threshold", .vInt 85)],
     .vDict [("metricName", .vStr "Workflow Accuracy"), ("metricDescription", .vStr "Percentage of tasks executed correctly within the defined workflow"), ("threshold", .vInt 90)],
     .vDict [("metricName", .vStr "User Satisfaction"), ("metricDescription", .vStr "Rating of agent interaction quality and usefulness"), ("threshold", .vInt 90)],
     .vDict [("metricName", .vStr "Response Time"), ("metricDescription", .vStr "Time taken for the agent to complete a workflow step"), ("threshold", .vInt 5)]]
  else if ai_category == "Machine Learning" then
    [.vDict [("metricName", .vStr "Accuracy"), ("metricDescription", .vStr "The proportion of correctly classified instances out of the total instances"), ("threshold", .vInt 90)],
     .vDict [("metricName", .vStr "Precision"), ("metricDescription", .vStr "The ratio of correctly predicted positive instances to all predicted positives"), ("threshold", .vInt 85)],
     .vDict [("metricName", .vStr "Recall"), ("metricDescription", .vStr "The ratio of correctly predicted positive instances to actual positives"), ("threshold", .vInt 85)],
     .vDict [("metricName", .vStr "F1-Score"), ("metricDescription", .vStr "The harmonic mean of precision and recall"), ("threshold", .vInt 85)],
     .vDict [("metricName", .vStr "ROC-AUC"), ("metricDescription", .vStr "Area under the Receiver Operating Characteristic curve"), ("threshold", .vInt 90)]]
  else if ai_category == "Agentic AI" then
    [.vDict [("metricName", .vStr "Task Completion Rate"), ("metricDescription", .vStr "Percentage of tasks successfully executed by agents"), ("threshold", .vInt 90)],
     .vDict [("metricName", .vStr "Decision Accuracy"), ("metricDescription", .vStr "Accuracy of autonomous decisions or recommendations"), ("threshold", .vInt 85)],
     .vDict [("metricName", .vStr "System Reliability"), ("metricDescription", .vStr "Measure of uptime and fault tolerance of the AI system"), ("threshold", .vInt 95)],
     .vDict [("metricName", .vStr "Collaboration Efficiency"), ("metricDescription", .vStr "Effectiveness of multi-agent coordination and workflow execution"), ("threshold", .vInt 85)],
     .vDict [("metricName", .vStr "Adaptability"), ("metricDescription", .vStr "How effectively agents adapt to changing goals or environments"), ("threshold", .vInt 80)]]
  else
    [.vDict [("metricName", .vStr "Generic Success Rate"), ("metricDescription", .vStr "Fallback metric when category is unclear"), ("threshold", .vInt 80)]]

/-- The category-specific default metric sets of `enhance_usecase_data` in
`lambda_function_for_api.py` (its ML set lacks ROC-AUC and its Agentic set
lacks Adaptability). -/
def default_metrics_api (ai_category : String) : List Val :=
  if ai_category == "AI Workflow Agents" then
    [.vDict [("metricName", .vStr "Response Relevance"), ("metricDescription", .vStr "Measure of how well the agent follows the defined workflow steps"), ("threshold", .vInt 85)],
     .vDict [("metricName", .vStr "Workflow Accuracy"), ("metricDescription", .vStr "Percentage of tasks executed correctly within the defined workflow"), ("threshold", .vInt 90)],
     .vDict [("metricName", .vStr "User Satisfaction"), ("metricDescription", .vStr "Rating of agent interaction quality and usefulness"), ("threshold", .vInt 90)],
     .vDict [("metricName", .vStr "Response Time"), ("metricDescription", .vStr "Time taken for the agent to complete a workflow step"), ("threshold", .vInt 5)]]
  else if ai_category == "Machine Learning" then
    [.vDict [("metricName", .vStr "Accuracy"), ("metricDescription", .vStr "The proportion of correctly classified instances out of the total instances"), ("threshold", .vInt 90)],
     .vDict [("metricName", .vStr "Precision"), ("metricDescription", .vStr "The ratio of correctly predicted positive instances to all predicted positives"), ("threshold", .vInt 85)],
     .vDict [("metricName", .vStr "Recall"), ("metricDescription", .vStr "The ratio of correctly predicted positive instances to actual positives"), ("threshold", .vInt 85)],
     .vDict [("metricName", .vStr "F1-Score"), ("metricDescription", .vStr "The harmonic mean of precision and recall"), ("threshold", .vInt 85)]]
  else if ai_category == "Agentic AI" then
    [.vDict [("metricName", .vStr "Task Completion Rate"), ("metricDescription", .vStr "Percentage of tasks successfully executed by agents"), ("threshold", .vInt 90)],
     .vDict [("metricName", .vStr "Decision Accuracy"), ("metricDescription", .vStr "Accuracy of autonomous decisions or recommendations"), ("threshold", .vInt 85)],
     .vDict [("metricName", .vStr "System Reliability"), ("metricDescription", .vStr "Measure of uptime and fault tolerance of the AI system"), ("threshold", .vInt 95)],
     .vDict [("metricName", .vStr "Collaboration Efficiency"), ("metricDescription", .vStr "Effectiveness of multi-agent coordination and workflow execution"), ("threshold", .vInt 85)]]
  else
    [.vDict [("metricName", .vStr "Generic Success Rate"), ("metricDescription", .vStr "Fallback metric when category is unclear"), ("threshold", .vInt 80)]]

/-- The per-metric step of the `metrics` loop in `enhance_usecase_data`
(`lambda_function.py`): dict entries lacking a `threshold` key gain the
default 80 (appended at the end, Python dict insertion order) and are kept;
non-dict entries are silently dropped (the loop only appends dicts). -/
def addThresholdDefault (m : Val) : Option Val :=
  match m with
  | .vDict kvs =>
    some (.vDict (if kvs.any (fun p => p.1 == "threshold") then kvs
                  else kvs ++ [("threshold", .vInt 80)]))
  | _ => none

/-- The `searchAttributesAsJson` recomputation of `enhance_usecase_data`:
`",".join` of `str` of the four named fields (`""` when absent). -/
def search_attributes (d : Item) : String :=
  String.intercalate ","
    [pyStr ((dget d "AIMethodologyType").getD (.vStr "")),
     pyStr ((dget d "modelName").getD (.vStr "")),
     pyStr ((dget d "sector").getD (.vStr "")),
     pyStr ((dget d "platform").getD (.vStr ""))]

/-- The scalar-string coercion of one designated field in
`enhance_usecase_data`: a list value is joined with `", "` over `str` of the
items, another non-string value is passed through `str`; a string value — and
an absent field, whose `get` default `""` is already a string — is left
untouched. -/
def coerceStringField (d : Item) (field : String) : Item :=
  match dget d field with
  | some (.vList xs) => dset d field (.vStr (String.intercalate ", " (xs.map pyStr)))
  | some (.vStr _) => d
  | some v => dset d field (.vStr (pyStr v))
  | none => d

/-- `enhance_usecase_data` (`lambda_function.py`): float conversion, forced
`usecaseCategory`, recomputed `searchAttributesAsJson`, the metrics
validation/defaulting, scalar coercion of three string fields, forced
`status`, and removal of the four unwanted fields. -/
def enhance_usecase_data (usecase_data : Item) (ai_category : String) : Item :=
  let d := convDict usecase_data
  let d := dset d "usecaseCategory" (.vStr ai_category)
  let d := dset d "searchAttributesAsJson" (.vStr (search_attributes d))
  let raw_metrics := (dget d "metrics").getD (.vList [])
  let metrics : List Val :=
    match raw_metrics with
    | .vList xs => if xs.isEmpty then default_metrics ai_category
                   else xs.filterMap addThresholdDefault
    | _ => default_metrics ai_category
  let d := dset d "metrics" (.vList metrics)
  let d := coerceStringField d "platform"
  let d := coerceStringField d "businessUsage"
  let d := coerceStringField d "modelDescription"
  let d := dset d "status" (.vStr "Not yet started")
  (["processingStatus", "documentType", "userId", "modelProcess"] : List String).foldl ddel d

/-- `enhance_usecase_data` (`lambda_function_for_api.py`): same shape except
that the default metric sets are only INSTALLED when the supplied `metrics`
is missing, not a list, or empty — a supplied non-empty list is left exactly
as it came (no per-entry threshold defaulting) — and no fields are removed. -/
def enhance_usecase_data_api (usecase_data : Item) (ai_category : String) : Item :=
  let d := convDict usecase_data
  let d := dset d "usecaseCategory" (.vStr ai_category)
  let d := dset d "searchAttributesAsJson" (.vStr (search_attributes d))
  let raw_metrics := (dget d "metrics").getD (.vList [])
  let d :=
    match raw_metrics with
    | .vList xs => if xs.isEmpty then dset d "metrics" (.vList (default_metrics_api ai_category))
                   else d
    | _ => dset d "metrics" (.vList (default_metrics_api ai_category))
  let d := coerceStringField d "platform"
  let d := coerceStringField d "businessUsage"
  let d := coerceStringField d "modelDescription"
  dset d "status" (.vStr "Not yet started")

/-- `generate_usecase_with_llm_focused` (`lambda_function.py`) after the LLM
call: `parsed` is the dict recovered from the model response by the
three-tier JSON extraction (`some` when one tier succeeds, `none` when the
call or all tiers fail, which the enclosing `except` turns into the
`{"error": ...}` dict).  On success the category and the
document-over-hint cloud provider are forced into the parsed dict
before enhancement. -/
def generate_usecase_with_llm_focused
    (document_text ai_category cloud_provider : String)
    (parsed : Option Item) : Item :=
  match parsed with
  | none => [("error", .vStr "Error parsing LLM response")]
  | some usecase_data =>
    let final_cloud_provider := determine_cloud_provider document_text cloud_provider
    let d := dset usecase_data "usecaseCategory" (.vStr ai_category)
    let d := dset d "cloudProvider" (.vStr final_cloud_provider)
    enhance_usecase_data d ai_category

/-- `generate_usecase_with_llm_focused` (`lambda_function_for_api.py`):
identical control flow, but delegating to the API variant of the
enhancement. -/
def generate_usecase_with_llm_focused_api
    (document_text ai_category cloud_provider : String)
    (parsed : Option Item) : Item :=
  match parsed with
  | none => [("error", .vStr "Error parsing LLM response")]
  | some usecase_data =>
    let final_cloud_provider := determine_cloud_provider document_text cloud_provider
    let d := dset usecase_data "usecaseCategory" (.vStr ai_category)
    let d := dset d "cloudProvider" (.vStr final_cloud_provider)
    enhance_usecase_data_api d ai_category

/-- The return value of `process_usecase_request`: either the
`{'file':..., 'error': ...}` dict or the
`{'result': {'usecase_id':..., 'ai_category':..., 'status':'success'}}` dict. -/
inductive ProcResult where
  | procError : String → ProcResult
  | procOk : String → String → ProcResult

/-- The `id` attribute of a stored item as the id scan of
`generate_sequential_id` projects it (`item.get('id', '')`). -/
def itemIdStr (it : Item) : String :=
  match dget it "id" with
  | some (.vStr s) => s
  | _ => ""

/-- Exact-match filter of the duplicate-check scan:
`Attr('documentHash').eq(document_hash)`. -/
def itemHashMatches (it : Item) (document_hash : String) : Bool :=
  match dget it "documentHash" with
  | some (.vStr s) => s == document_hash
  | _ => false

/-- The item literal written by `process_usecase_request`
(`lambda_function.py`, step 11): the fixed envelope fields followed by the
`**`-merge of the enhanced usecase data minus `documentType`/`userId`
(a merged key overwrites an envelope key of the same name in place,
Python dict semantics). -/
def build_usecase_item (usecase_id nowIso s3url riskframeworkid : String)
    (framework_id : Option String)
    (ai_approach ai_category hash_value document_summary design_doc : String)
    (usecase_data : Item) : Item :=
  let rf : Val :=
    if riskframeworkid == "" then
      match framework_id with
      | some f => .vStr f
      | none => .vNull
    else .vStr riskframeworkid
  let base : Item :=
    [("id", .vStr usecase_id), ("createdAt", .vStr nowIso), ("updatedAt", .vStr nowIso),
     ("sourceDocURL", .vStr s3url), ("category", .vStr "AI Inventory"),
     ("processingStatus", .vStr "completed"), ("riskframeworkid", rf),
     ("aiApproach", .vStr ai_approach), ("aiCategory", .vStr ai_category),
     ("documentHash", .vStr hash_value), ("documentSummary", .vStr document_summary),
     ("designDocument", .vStr design_doc),
     ("aiCloudProvider", (dget usecase_data "cloudProvider").getD (.vStr "GCP"))]
  (usecase_data.filter (fun p => ! (p.1 == "documentType" || p.1 == "userId"))).foldl
    (fun d p => dset d p.1 p.2) base

/-- The outcomes of the external interactions one call of
`process_usecase_request` performs, in source order: whether the bucket name
parses (`extract_app_stage_tenant_from_bucket` raises on fewer than three
dash-separated parts), the normalised text the S3 extraction returns
(`none`: extraction failed or unsupported type), the design-document,
summary and category LLM responses (`none`: the call raised), the parsed
dict of the generation response, the framework-table lookup, whether the id
scan succeeds, and the wall clock.  The methodology-metrics-mapping fetch
only parameterises the generation prompt and is absorbed into the
generation outcome. -/
structure ReqCtx where
  bucketOk : Bool
  extractedText : Option String
  designResp : Option String
  summarizeResp : Option String
  categoryResp : Option String
  generateParsed : Option Item
  frameworkId : Option String
  idScanOk : Bool
  now : Nat
  nowIso : String

/-- `process_usecase_request` (`lambda_function.py`): the hash + S3-URL
ingestion entry point.  `hash_value` is the CALLER-SUPPLIED precomputed
content hash; `store` is the tenant's usecase table (scans and the final
`put_item` all target it).  Note: this entry point performs NO duplicate
check — nothing inspects `documentHash` before the write. -/
def process_usecase_request (hash_value s3url riskframeworkid : String)
    (ctx : ReqCtx) (store : List Item) : ProcResult × List Item :=
  if ¬ ctx.bucketOk then
    (.procError "Bucket name does not follow expected format", store)
  else
    match ctx.extractedText with
    | none => (.procError "Failed to extract text or empty document", store)
    | some document_text =>
      if document_text == "" then
        (.procError "Failed to extract text or empty document", store)
      else
        match ctx.designResp with
        | none => (.procError "LLM service error", store)
        | some design_doc_content =>
          match ctx.summarizeResp with
          | none => (.procError "LLM service error", store)
          | some document_summary =>
            let ca :=
              determine_ai_category_and_approach_with_llm document_text ctx.categoryResp
            let ai_category := ca.1
            let ai_approach := ca.2
            let usecase_data :=
              generate_usecase_with_llm_focused document_text ai_category "GCP"
                ctx.generateParsed
            match dget usecase_data "error" with
            | some _ => (.procError "usecase generation error", store)
            | none =>
              let usecase_id :=
                generate_sequential_id
                  (if ctx.idScanOk then some (store.map itemIdStr) else none)
                  "AI-UC-AST-" ctx.now
              let item :=
                build_usecase_item usecase_id ctx.nowIso s3url riskframeworkid
                  ctx.frameworkId ai_approach ai_category hash_value
                  document_summary design_doc_content usecase_data
              (.procOk usecase_id ai_category, store ++ [item])

/-- The response dict of `process_document_upload`
(`lambda_function_for_api.py`). -/
structure PDUResult where
  success : Bool
  message : String
  errInfo : Option String
  usecase_id : Option String
  ai_category : Option String
  document_hash : Option String

/-- A failure response of `process_document_upload`. -/
def pduFail (message errInfo : String) : PDUResult :=
  ⟨false, message, some errInfo, none, none, none⟩

/-- The outcomes of the external interactions one call of
`process_document_upload` performs, in source order: the detected file type
(`detect_file_type filename`), the raw concatenated text the external
PDF/DOCX/TXT parser delivers (`none`: the parser raised), the
framework-table lookup, whether the duplicate-check scan succeeds, the
summary / category / design / generation LLM outcomes, whether the id scan
succeeds, and the wall clock.  The methodology-metrics-mapping fetch only
parameterises the generation prompt and is absorbed into the generation
outcome. -/
structure UpCtx where
  fileType : String
  rawText : Option String
  frameworkId : Option String
  dedupScanOk : Bool
  summarizeResp : Option String
  categoryResp : Option String
  designResp : Option String
  generateParsed : Option Item
  idScanOk : Bool
  now : Nat
  nowIso : String

/-- The item literal written by `process_document_upload`: like the hash
entry point's, but the `**`-merge only withholds the (misspelled) key
`documserId`, so `documentType` and `userId` DO survive into the stored
item on this entry point. -/
def build_usecase_item_api (usecase_id nowIso s3url : String)
    (risk_framework_id framework_id : Option String)
    (ai_approach ai_category document_hash document_summary design_doc : String)
    (usecase_data : Item) : Item :=
  let rf : Val :=
    match risk_framework_id with
    | some r => .vStr r
    | none =>
      match framework_id with
      | some f => .vStr f
      | none => .vNull
  let base : Item :=
    [("id", .vStr usecase_id), ("createdAt", .vStr nowIso), ("updatedAt", .vStr nowIso),
     ("sourceDocURL", .vStr s3url), ("category", .vStr "AI Inventory"),
     ("processingStatus", .vStr "completed"), ("riskframeworkid", rf),
     ("aiApproach", .vStr ai_approach), ("aiCategory", .vStr ai_category),
     ("documentHash", .vStr document_hash), ("documentSummary", .vStr document_summary),
     ("designDocument", .vStr design_doc),
     ("aiCloudProvider", (dget usecase_data "cloudProvider").getD (.vStr "GCP"))]
  (usecase_data.filter (fun p => ! (p.1 == "documserId"))).foldl
    (fun d p => dset d p.1 p.2) base

/-- `process_document_upload` (`lambda_function_for_api.py`): the raw-upload
ingestion entry point.  The content hash is computed here (`H` is SHA-256);
the duplicate check scans the store for an equal `documentHash` BEFORE the
write and rejects with a message naming the existing record's id; a failing
duplicate-check scan is swallowed (the ingestion proceeds). -/
def process_document_upload (ctx : UpCtx) (H : String → String)
    (cloud_id filename : String) (risk_framework_id : Option String)
    (store : List Item) : PDUResult × List Item :=
  if ctx.fileType == "UNKNOWN" then
    (pduFail "Unsupported file type. Please upload PDF, DOCX, or TXT files."
      "Unsupported file type", store)
  else
    match ctx.rawText with
    | none => (pduFail "Failed to extract text from document" "extraction error", store)
    | some raw =>
      let document_text := normalize_text raw
      let document_hash := content_hash H raw
      if document_text == "" then
        (pduFail "No text content found in the document" "Empty document", store)
      else
        let dup : Option String :=
          if ctx.dedupScanOk then
            match store.filter (fun it => itemHashMatches it document_hash) with
            | [] => none
            | it :: _ =>
              -- `existing_id = response['Items'][0]['id']`; a KeyError on a
              -- hashless projection is swallowed by the `except` and the
              -- ingestion proceeds, hence the `Option`.
              (dget it "id").map (fun v => "Document already exists with ID: " ++ pyStr v)
          else none
        match dup with
        | some msg => (pduFail msg "Duplicate document detected", store)
        | none =>
          match ctx.summarizeResp with
          | none => (pduFail "Internal server error" "LLM service error", store)
          | some document_summary =>
            let ca :=
              determine_ai_category_and_approach_with_llm document_text ctx.categoryResp
            let ai_category := ca.1
            let ai_approach := ca.2
            match ctx.designResp with
            | none => (pduFail "Internal server error" "LLM service error", store)
            | some design_doc_content =>
              let usecase_data :=
                generate_usecase_with_llm_focused_api document_text ai_category "GCP"
                  ctx.generateParsed
              match dget usecase_data "error" with
              | some e =>
                (pduFail ("Error generating usecase: " ++ pyStr e) (pyStr e), store)
              | none =>
                let usecase_id :=
                  generate_sequential_id
                    (if ctx.idScanOk then some (store.map itemIdStr) else none)
                    "AI-UC-AST-" ctx.now
                let s3url := "s3://your-bucket/" ++ cloud_id ++ "/" ++ document_hash
                  ++ "/" ++ filename
                let item :=
                  build_usecase_item_api usecase_id ctx.nowIso s3url risk_framework_id
                    ctx.frameworkId ai_approach ai_category document_hash
                    document_summary design_doc_content usecase_data
                (⟨true, "Document processed successfully", none, some usecase_id,
                  some ai_category, some document_hash⟩, store ++ [item])

/-- The id prefix both entry points allocate under. -/
def idPrefix : String := "AI-UC-AST-"

/-- A sequence of calls of `process_usecase_request` against one evolving
store, collecting the ids of the SUCCESSFUL ingestions in call order
(each success is the single `put_item` of its call). -/
def run_ingestions (hash_value s3url riskframeworkid : String) :
    List ReqCtx → List Item → List String
  | [], _ => []
  | c :: cs, store =>
    match process_usecase_request hash_value s3url riskframeworkid c store with
    | (.procOk uid _, store1) => uid :: run_ingestions hash_value s3url riskframeworkid cs store1
    | (.procError _, store1) => run_ingestions hash_value s3url riskframeworkid cs store1

/-- `lambda_handler` (`lambda_function.py`), the hash + S3-URL entry: 500 when
the body fails to parse (the outer `except`), 400 when `hash`, `s3url` or
`cloudId` is missing/falsy, and otherwise 200 — the result of
`process_usecase_request` (passed here as `r`) is wrapped into the body but
NEVER inspected for the status code. -/
def lambda_handler_hash (bodyOk : Bool) (hash_value s3url cloudId : String)
    (r : ProcResult) : Nat :=
  if ¬ bodyOk then 500
  else if hash_value == "" || s3url == "" || cloudId == "" then 400
  else
    match r with
    | .procOk _ _ => 200
    | .procError _ => 200

/-- `lambda_handler` (`lambda_function_for_api.py`): routes on path/method;
on `/upload-document`, 500 when the body fails to parse/decode, 400 when
`file_content` or `cloud_id` is missing, else 200 exactly when
`process_document_upload` reported success and 400 otherwise; unexpected
exceptions anywhere map to 500 via the outer `except`. -/
def lambda_handler_api (path http_method : String) (bodyOk : Bool)
    (file_content_present cloud_id_present : Bool) (upload : PDUResult) : Nat :=
  if path == "/health" && http_method == "GET" then 200
  else if path == "/upload-document" && http_method == "POST" then
    if ¬ bodyOk then 500
    else if ¬ file_content_present then 400
    else if ¬ cloud_id_present then 400
    else if upload.success then 200 else 400
  else if path == "/process-usecase" && http_method == "POST" then 200
  else 200

/-- The final `metrics` value of `enhance_usecase_data`
(`lambda_function.py`) as a function of the (float-converted) raw metrics
value: a missing, non-list or empty-list value is replaced by the
category-specific default set; a non-empty list is filtered through the
per-entry threshold defaulting. -/
def final_metrics (raw : Option Val) (ai_category : String) : List Val :=
  match raw.getD (.vList []) with
  | .vList xs => if xs.isEmpty then default_metrics ai_category
                 else xs.filterMap addThresholdDefault
  | _ => default_metrics ai_category

/-- All external interactions of one `process_usecase_request` call succeed
and the generation response is a well-formed record: extraction returns
non-empty text, every LLM call returns, both store scans succeed, and the
parsed generation dict carries no `error` key and none of the
envelope-owned keys `id` (the generation prompt's 27 required fields do not
include them, so a conforming model response satisfies this). -/
def ctxOk (c : ReqCtx) : Prop :=
  c.bucketOk = true ∧ c.idScanOk = true ∧
  (∃ t, c.extractedText = some t ∧ (t == "") = false) ∧
  (∃ s, c.designResp = some s) ∧
  (∃ s, c.summarizeResp = some s) ∧
  (∃ p, c.generateParsed = some p ∧ dget p "error" = none ∧ dget p "id" = none)

/-- All LLM and id-scan interactions of one `process_document_upload` call
succeed, the file type is supported, and the generation response is a
well-formed record (no `error`, and none of the envelope-owned keys
`id` / `documentHash`, which the generation prompt does not request).
Says nothing about the document text or the duplicate-check scan. -/
def upOk (c : UpCtx) : Prop :=
  (c.fileType == "UNKNOWN") = false ∧ c.idScanOk = true ∧
  (∃ s, c.summarizeResp = some s) ∧
  (∃ s, c.designResp = some s) ∧
  (∃ p, c.generateParsed = some p ∧ dget p "error" = none ∧ dget p "id" = none ∧
    dget p "documentHash" = none)

theorem find?_map_replace (d : Item) (k : String) (v : Val)
    (h : d.any (fun p => p.1 == k) = true) :
    (d.map (fun p => if p.1 == k then (k, v) else p)).find? (fun p => p.1 == k)
      = some (k, v) := by
  induction d with
  | nil => simp at h
  | cons a t ih =>
    simp only [List.any_cons, Bool.or_eq_true] at h
    simp only [List.map_cons]
    by_cases hk : (a.1 == k) = true
    · rw [if_pos hk]
      simp [List.find?_cons]
    · have hkf : (a.1 == k) = false := by simpa using hk
      rw [if_neg hk]
      simp only [List.find?_cons, hkf]
      rcases h with h | h
      · exact absurd h hk
      · exact ih h

theorem dget_dset_self (d : Item) (k : String) (v : Val) :
    dget (dset d k v) k = some v := by
  unfold dget dset
  by_cases h : d.any (fun p => p.1 == k)
  · rw [if_pos h, find?_map_replace d k v h]
    rfl
  · rw [if_neg h, List.find?_append]
    have hn : d.find? (fun p => p.1 == k) = none := by
      rw [List.find?_eq_none]
      intro x hx hpx
      exact h (List.any_eq_true.mpr ⟨x, hx, hpx⟩)
    rw [hn]
    simp [List.find?_cons]

theorem find?_map_replace_ne (d : Item) (k k' : String) (v : Val) (hne : k' ≠ k) :
    (d.map (fun p => if p.1 == k then (k, v) else p)).find? (fun p => p.1 == k')
      = d.find? (fun p => p.1 == k') := by
  have h1 : ((k : String) == k') = false := beq_eq_false_iff_ne.mpr (Ne.symm hne)
  induction d with
  | nil => rfl
  | cons a t ih =>
    simp only [List.map_cons]
    by_cases hk : (a.1 == k) = true
    · have ha : a.1 = k := beq_iff_eq.mp hk
      have haf : (a.1 == k') = false := by rw [ha]; exact h1
      rw [if_pos hk]
      simp only [List.find?_cons, h1, haf]
      exact ih
    · rw [if_neg hk]
      by_cases hk' : (a.1 == k') = true
      · simp only [List.find?_cons, hk']
      · have hkf : (a.1 == k') = false := by simpa using hk'
        simp only [List.find?_cons, hkf]
        exact ih

theorem dget_dset_ne (d : Item) (k k' : String) (v : Val) (hne : k' ≠ k) :
    dget (dset d k v) k' = dget d k' := by
  unfold dget dset
  by_cases h : d.any (fun p => p.1 == k)
  · rw [if_pos h, find?_map_replace_ne d k k' v hne]
  · have h1 : ((k : String) == k') = false := beq_eq_false_iff_ne.mpr (Ne.symm hne)
    rw [if_neg h, List.find?_append]
    simp [List.find?_cons, h1]

theorem dget_ddel_ne (d : Item) (k k' : String) (hne : k' ≠ k) :
    dget (ddel d k) k' = dget d k' := by
  unfold dget ddel
  induction d with
  | nil => rfl
  | cons a t ih =>
    rw [List.filter_cons]
    by_cases hk : (a.1 == k) = true
    · have ha : a.1 = k := beq_iff_eq.mp hk
      have h1 : ((k : String) == k') = false := beq_eq_false_iff_ne.mpr (Ne.symm hne)
      have haf : (a.1 == k') = false := by rw [ha]; exact h1
      rw [if_neg (by simp [hk])]
      simp only [List.find?_cons, haf]
      exact ih
    · rw [if_pos (by simp [hk])]
      by_cases hk' : (a.1 == k') = true
      · simp only [List.find?_cons, hk']
      · have hkf : (a.1 == k') = false := by simpa using hk'
        simp only [List.find?_cons, hkf]
        exact ih

theorem dget_convDict (d : Item) (k : String) :
    dget (convDict d) k = (dget d k).map convFloats := by
  induction d with
  | nil => rfl
  | cons a t ih =>
    obtain ⟨k1, v1⟩ := a
    unfold dget at ih ⊢
    rw [convDict]
    by_cases hk : (k1 == k) = true
    · simp [List.find?_cons, hk]
    · have hkf : (k1 == k) = false := by simpa using hk
      simp only [List.find?_cons, hkf]
      exact ih

theorem dget_coerce_ne (d : Item) (f k : String) (hne : k ≠ f) :
    dget (coerceStringField d f) k = dget d k := by
  unfold coerceStringField
  cases hv : dget d f with
  | none => rfl
  | some v =>
    cases v <;> simp [dget_dset_ne _ _ _ _ hne]

theorem dget_foldl_ddel_ne (ks : List String) (d : Item) (k : String)
    (h : k ∉ ks) : dget (ks.foldl ddel d) k = dget d k := by
  induction ks generalizing d with
  | nil => rfl
  | cons a t ih =>
    have hka : k ≠ a := fun he => h (he ▸ List.mem_cons_self a t)
    have hkt : k ∉ t := fun ht => h (List.mem_cons_of_mem a ht)
    rw [List.foldl_cons, ih _ hkt, dget_ddel_ne _ _ _ hka]

theorem dget_foldl_dset_of_ne (l : Item) (d : Item) (k : String)
    (h : ∀ p ∈ l, ¬ (p.1 == k) = true) :
    dget (l.foldl (fun d p => dset d p.1 p.2) d) k = dget d k := by
  induction l generalizing d with
  | nil => rfl
  | cons a t ih =>
    have ha : ¬ (a.1 == k) = true := h a (List.mem_cons_self a t)
    have hane : k ≠ a.1 := fun he => ha (by simp [he])
    rw [List.foldl_cons, ih _ (fun p hp => h p (List.mem_cons_of_mem a hp)),
      dget_dset_ne _ _ _ _ hane]

theorem dget_none_keys (d : Item) (k : String) (h : dget d k = none) :
    ∀ p ∈ d, ¬ (p.1 == k) = true := by
  unfold dget at h
  rw [Option.map_eq_none'] at h
  exact List.find?_eq_none.mp h

theorem enhance_frame (d : Item) (cat k : String)
    (h1 : k ≠ "usecaseCategory") (h2 : k ≠ "searchAttributesAsJson")
    (h3 : k ≠ "metrics") (h4 : k ≠ "platform") (h5 : k ≠ "businessUsage")
    (h6 : k ≠ "modelDescription") (h7 : k ≠ "status")
    (h8 : k ≠ "processingStatus") (h9 : k ≠ "documentType")
    (h10 : k ≠ "userId") (h11 : k ≠ "modelProcess") :
    dget (enhance_usecase_data d cat) k = (dget d k).map convFloats := by
  simp only [enhance_usecase_data]
  rw [dget_foldl_ddel_ne _ _ _ (by simp [h8, h9, h10, h11]),
    dget_dset_ne _ _ _ _ h7, dget_coerce_ne _ _ _ h6, dget_coerce_ne _ _ _ h5,
    dget_coerce_ne _ _ _ h4, dget_dset_ne _ _ _ _ h3, dget_dset_ne _ _ _ _ h2,
    dget_dset_ne _ _ _ _ h1, dget_convDict]

theorem enhance_status (d : Item) (cat : String) :
    dget (enhance_usecase_data d cat) "status" = some (.vStr "Not yet started") := by
  simp only [enhance_usecase_data]
  rw [dget_foldl_ddel_ne _ _ _ (by simp), dget_dset_self]

theorem enhance_category (d : Item) (cat : String) :
    dget (enhance_usecase_data d cat) "usecaseCategory" = some (.vStr cat) := by
  simp only [enhance_usecase_data]
  rw [dget_foldl_ddel_ne _ _ _ (by simp),
    dget_dset_ne _ _ _ _ (by decide), dget_coerce_ne _ _ _ (by decide),
    dget_coerce_ne _ _ _ (by decide), dget_coerce_ne _ _ _ (by decide),
    dget_dset_ne _ _ _ _ (by decide), dget_dset_ne _ _ _ _ (by decide),
    dget_dset_self]

theorem enhance_metrics (d : Item) (cat : String) :
    dget (enhance_usecase_data d cat) "metrics"
      = some (.vList (final_metrics ((dget d "metrics").map convFloats) cat)) := by
  simp only [enhance_usecase_data]
  rw [dget_foldl_ddel_ne _ _ _ (by simp),
    dget_dset_ne _ _ _ _ (by decide), dget_coerce_ne _ _ _ (by decide),
    dget_coerce_ne _ _ _ (by decide), dget_coerce_ne _ _ _ (by decide),
    dget_dset_self,
    dget_dset_ne _ _ _ _ (by decide), dget_dset_ne _ _ _ _ (by decide),
    dget_convDict]
  rcases hdm : dget d "metrics" with _ | v
  · rfl
  · cases v <;> simp [final_metrics]

theorem convList_isEmpty (xs : List Val) : (convList xs).isEmpty = xs.isEmpty := by
  cases xs <;> rfl

theorem enhance_api_frame (d : Item) (cat k : String)
    (h1 : k ≠ "usecaseCategory") (h2 : k ≠ "searchAttributesAsJson")
    (h3 : k ≠ "metrics") (h4 : k ≠ "platform") (h5 : k ≠ "businessUsage")
    (h6 : k ≠ "modelDescription") (h7 : k ≠ "status") :
    dget (enhance_usecase_data_api d cat) k = (dget d k).map convFloats := by
  simp only [enhance_usecase_data_api]
  rw [dget_dset_ne _ _ _ _ h7, dget_coerce_ne _ _ _ h6, dget_coerce_ne _ _ _ h5,
    dget_coerce_ne _ _ _ h4]
  split
  · split
    · rw [dget_dset_ne _ _ _ _ h3, dget_dset_ne _ _ _ _ h2,
        dget_dset_ne _ _ _ _ h1, dget_convDict]
    · rw [dget_dset_ne _ _ _ _ h2, dget_dset_ne _ _ _ _ h1, dget_convDict]
  · rw [dget_dset_ne _ _ _ _ h3, dget_dset_ne _ _ _ _ h2,
      dget_dset_ne _ _ _ _ h1, dget_convDict]

theorem enhance_api_status (d : Item) (cat : String) :
    dget (enhance_usecase_data_api d cat) "status"
      = some (.vStr "Not yet started") := by
  simp only [enhance_usecase_data_api]
  rw [dget_dset_self]

theorem enhance_api_category (d : Item) (cat : String) :
    dget (enhance_usecase_data_api d cat) "usecaseCategory" = some (.vStr cat) := by
  simp only [enhance_usecase_data_api]
  rw [dget_dset_ne _ _ _ _ (by decide), dget_coerce_ne _ _ _ (by decide),
    dget_coerce_ne _ _ _ (by decide), dget_coerce_ne _ _ _ (by decide)]
  split
  · split
    · rw [dget_dset_ne _ _ _ _ (by decide), dget_dset_ne _ _ _ _ (by decide),
        dget_dset_self]
    · rw [dget_dset_ne _ _ _ _ (by decide), dget_dset_self]
  · rw [dget_dset_ne _ _ _ _ (by decide), dget_dset_ne _ _ _ _ (by decide),
      dget_dset_self]

theorem enhance_api_metrics_kept (d : Item) (cat : String) (xs : List Val)
    (hm : dget d "metrics" = some (.vList xs)) (hne : xs.isEmpty = false) :
    dget (enhance_usecase_data_api d cat) "metrics"
      = some (.vList (convList xs)) := by
  simp only [enhance_usecase_data_api]
  rw [dget_dset_ne _ _ _ _ (by decide), dget_coerce_ne _ _ _ (by decide),
    dget_coerce_ne _ _ _ (by decide), dget_coerce_ne _ _ _ (by decide),
    dget_dset_ne _ _ _ _ (by decide), dget_dset_ne _ _ _ _ (by decide),
    dget_convDict, hm]
  simp only [Option.map_some', convFloats, Option.getD_some, convList_isEmpty, hne,
    Bool.false_eq_true, if_false]
  rw [dget_dset_ne _ _ _ _ (by decide), dget_dset_ne _ _ _ _ (by decide),
    dget_convDict, hm]
  simp [convFloats]

theorem enhance_api_metrics_default_none (d : Item) (cat : String)
    (hm : dget d "metrics" = none) :
    dget (enhance_usecase_data_api d cat) "metrics"
      = some (.vList (default_metrics_api cat)) := by
  simp only [enhance_usecase_data_api]
  rw [dget_dset_ne _ _ _ _ (by decide), dget_coerce_ne _ _ _ (by decide),
    dget_coerce_ne _ _ _ (by decide), dget_coerce_ne _ _ _ (by decide),
    dget_dset_ne _ _ _ _ (by decide), dget_dset_ne _ _ _ _ (by decide),
    dget_convDict, hm]
  simp only [Option.map_none', Option.getD_none, List.isEmpty_nil, if_true]
  rw [dget_dset_self]

theorem enhance_api_metrics_default_empty (d : Item) (cat : String)
    (hm : dget d "metrics" = some (.vList [])) :
    dget (enhance_usecase_data_api d cat) "metrics"
      = some (.vList (default_metrics_api cat)) := by
  simp only [enhance_usecase_data_api]
  rw [dget_dset_ne _ _ _ _ (by decide), dget_coerce_ne _ _ _ (by decide),
    dget_coerce_ne _ _ _ (by decide), dget_coerce_ne _ _ _ (by decide),
    dget_dset_ne _ _ _ _ (by decide), dget_dset_ne _ _ _ _ (by decide),
    dget_convDict, hm]
  simp only [Option.map_some', convFloats, convList, Option.getD_some,
    List.isEmpty_nil, if_true]
  rw [dget_dset_self]

theorem enhance_api_metrics_default_nonlist (d : Item) (cat : String) (v : Val)
    (hm : dget d "metrics" = some v) (hv : ∀ xs, v ≠ .vList xs) :
    dget (enhance_usecase_data_api d cat) "metrics"
      = some (.vList (default_metrics_api cat)) := by
  simp only [enhance_usecase_data_api]
  rw [dget_dset_ne _ _ _ _ (by decide), dget_coerce_ne _ _ _ (by decide),
    dget_coerce_ne _ _ _ (by decide), dget_coerce_ne _ _ _ (by decide),
    dget_dset_ne _ _ _ _ (by decide), dget_dset_ne _ _ _ _ (by decide),
    dget_convDict, hm]
  cases v with
  | vList xs => exact absurd rfl (hv xs)
  | vStr s => simp only [Option.map_some', convFloats, Option.getD_some]; rw [dget_dset_self]
  | vInt n => simp only [Option.map_some', convFloats, Option.getD_some]; rw [dget_dset_self]
  | vFloat q => simp only [Option.map_some', convFloats, Option.getD_some]; rw [dget_dset_self]
  | vDec q => simp only [Option.map_some', convFloats, Option.getD_some]; rw [dget_dset_self]
  | vBool b => simp only [Option.map_some', convFloats, Option.getD_some]; rw [dget_dset_self]
  | vNull => simp only [Option.map_some', convFloats, Option.getD_some]; rw [dget_dset_self]
  | vDict kvs => simp only [Option.map_some', convFloats, Option.getD_some]; rw [dget_dset_self]

theorem digitChar10_isDigit (d : Nat) (h : d < 10) : (digitChar10 d).isDigit = true := by
  interval_cases d <;> decide

theorem digitChar10_toNat (d : Nat) (h : d < 10) : (digitChar10 d).toNat - 48 = d := by
  interval_cases d <;> decide

theorem digitsRev_lt (fuel n : Nat) : ∀ d ∈ digitsRev fuel n, d < 10 := by
  induction fuel generalizing n with
  | zero => intro d hd; simp [digitsRev] at hd
  | succ fuel ih =>
    intro d hd
    by_cases hn : n = 0
    · simp [digitsRev, hn] at hd
    · simp only [digitsRev, if_neg hn, List.mem_cons] at hd
      rcases hd with hd | hd
      · exact hd ▸ Nat.mod_lt _ (by norm_num)
      · exact ih _ _ hd

theorem foldl_digitsRev (f : Nat → Char → Nat)
    (hf : ∀ a c, f a c = 10 * a + (c.toNat - 48)) :
    ∀ fuel n a, n ≤ fuel →
      (((digitsRev fuel n).map digitChar10).reverse).foldl f a
        = a * 10 ^ (digitsRev fuel n).length + n := by
  intro fuel
  induction fuel with
  | zero =>
    intro n a hn
    interval_cases n
    simp [digitsRev]
  | succ fuel ih =>
    intro n a hn
    by_cases h0 : n = 0
    · simp [digitsRev, h0]
    · rw [digitsRev, if_neg h0, List.map_cons, List.reverse_cons, List.foldl_append,
        ih (n / 10) a (by omega)]
      simp only [List.foldl_cons, List.foldl_nil, List.length_cons]
      rw [hf, digitChar10_toNat _ (Nat.mod_lt _ (by norm_num))]
      have hdm : 10 * (n / 10) + n % 10 = n := Nat.div_add_mod n 10
      ring_nf
      omega

theorem natDigits_all_digit (n : Nat) : ∀ c ∈ natDigits n, c.isDigit = true := by
  intro c hc
  unfold natDigits at hc
  by_cases h0 : n = 0
  · simp [h0] at hc
    simp [hc]
  · rw [if_neg h0] at hc
    rw [List.mem_reverse, List.mem_map] at hc
    obtain ⟨d, hd, rfl⟩ := hc
    exact digitChar10_isDigit d (digitsRev_lt n n d hd)

theorem natDigits_ne_nil (n : Nat) : natDigits n ≠ [] := by
  unfold natDigits
  by_cases h0 : n = 0
  · simp [h0]
  · rw [if_neg h0]
    intro hcon
    have h1 : digitsRev n n = [] := by
      rcases hv : digitsRev n n with _ | ⟨a, l⟩
      · rfl
      · rw [hv] at hcon
        simp at hcon
    have hn : 0 < n := Nat.pos_of_ne_zero h0
    rcases n with _ | m
    · exact h0 rfl
    · rw [digitsRev, if_neg h0] at h1
      simp at h1

theorem foldl_natDigits (n : Nat) :
    (natDigits n).foldl (fun a c => 10 * a + (c.toNat - 48)) 0 = n := by
  unfold natDigits
  by_cases h0 : n = 0
  · simp [h0]
  · rw [if_neg h0]
    rw [foldl_digitsRev _ (fun a c => rfl) n n 0 (le_refl n)]
    simp

theorem digitsToNat?_pad3 (n : Nat) : digitsToNat? (pad3 n).data = some n := by
  have hdata : (pad3 n).data = List.replicate (3 - (natDigits n).length) '0' ++ natDigits n := rfl
  rw [hdata]
  unfold digitsToNat?
  rw [if_pos ?hcond]
  case hcond =>
    constructor
    · intro hcon
      rw [List.isEmpty_iff, List.append_eq_nil] at hcon
      exact natDigits_ne_nil n hcon.2
    · rw [List.all_append]
      have hra : (List.replicate (3 - (natDigits n).length) '0').all
          (fun c => c.isDigit) = true := by
        rw [List.all_eq_true]
        intro c hc
        rw [List.eq_of_mem_replicate hc]
        decide
      have hna : (natDigits n).all (fun c => c.isDigit) = true := by
        rw [List.all_eq_true]
        exact natDigits_all_digit n
      rw [hra, hna]
      rfl
  · rw [List.foldl_append]
    have hrep : ∀ (m : Nat),
        (List.replicate m '0').foldl (fun a c => 10 * a + (c.toNat - 48)) 0 = 0 := by
      intro m
      induction m with
      | zero => rfl
      | succ m ih => simpa [List.replicate_succ] using ih
    rw [hrep, foldl_natDigits]

theorem isPrefixOf_append_self : ∀ (l t : List Char), l.isPrefixOf (l ++ t) = true
  | [], _ => by simp [List.isPrefixOf]
  | c :: l, t => by
    simp only [List.cons_append, List.isPrefixOf_cons₂_self]
    exact isPrefixOf_append_self l t

theorem parse_suffix_append_pad3 (pfx : String) (n : Nat) :
    parse_suffix pfx (pfx ++ pad3 n) = some n := by
  unfold parse_suffix
  rw [if_pos ?hpre]
  case hpre =>
    rw [String.data_append]
    exact isPrefixOf_append_self _ _
  · rw [String.data_append]
    have hlen : pfx.length = pfx.data.length := rfl
    rw [hlen, List.drop_left, digitsToNat?_pad3]

theorem parse_suffix_none_of_not_prefix (pfx s : String)
    (h : ¬ pfx.data.isPrefixOf s.data = true) : parse_suffix pfx s = none := by
  unfold parse_suffix
  rw [if_neg h]

theorem scanMax_eq_maxSuffix (pfx : String) (ids : List String) :
    scanMaxNum pfx ids = maxSuffix pfx ids := by
  have key : ∀ (l : List String) (a : Nat),
      l.foldl (fun m s =>
        match parse_suffix pfx s with
        | some n => if m < n then n else m
        | none => m) a
        = Nat.max a ((l.filterMap (parse_suffix pfx)).foldr Nat.max 0) := by
    intro l
    induction l with
    | nil => intro a; simp
    | cons s t ih =>
      intro a
      rw [List.foldl_cons, ih]
      rcases hp : parse_suffix pfx s with _ | n
      · simp [List.filterMap_cons, hp]
      · simp only [List.filterMap_cons, hp, List.foldr_cons]
        have hstep : (if a < n then n else a) = Nat.max a n := by
          rcases Nat.lt_or_ge a n with h | h
          · simp [h, Nat.max_eq_right (Nat.le_of_lt h)]
          · simp [Nat.not_lt.mpr h, Nat.max_eq_left h]
        rw [hstep]
        exact Nat.max_assoc a n _
  unfold scanMaxNum maxSuffix
  rw [key]
  simp

theorem maxSuffix_append_parsed (pfx : String) (ids : List String) (s : String)
    (n : Nat) (h : parse_suffix pfx s = some n) :
    maxSuffix pfx (ids ++ [s]) = Nat.max (maxSuffix pfx ids) n := by
  unfold maxSuffix
  rw [List.filterMap_append]
  simp only [List.filterMap_cons, h, List.filterMap_nil]
  have key : ∀ (l : List Nat), (l ++ [n]).foldr Nat.max 0
      = Nat.max (l.foldr Nat.max 0) n := by
    intro l
    induction l with
    | nil => simp [Nat.max_comm]
    | cons a t ih =>
      simp only [List.cons_append, List.foldr_cons, ih]
      exact (Nat.max_assoc a _ n).symm
  exact key _

theorem generate_frame (text cat hint : String) (p : Item) (k : String)
    (h0 : k ≠ "cloudProvider")
    (h1 : k ≠ "usecaseCategory") (h2 : k ≠ "searchAttributesAsJson")
    (h3 : k ≠ "metrics") (h4 : k ≠ "platform") (h5 : k ≠ "businessUsage")
    (h6 : k ≠ "modelDescription") (h7 : k ≠ "status")
    (h8 : k ≠ "processingStatus") (h9 : k ≠ "documentType")
    (h10 : k ≠ "userId") (h11 : k ≠ "modelProcess") :
    dget (generate_usecase_with_llm_focused text cat hint (some p)) k
      = (dget p k).map convFloats := by
  simp only [generate_usecase_with_llm_focused]
  rw [enhance_frame _ _ _ h1 h2 h3 h4 h5 h6 h7 h8 h9 h10 h11,
    dget_dset_ne _ _ _ _ h0, dget_dset_ne _ _ _ _ h1]

theorem generate_api_frame (text cat hint : String) (p : Item) (k : String)
    (h0 : k ≠ "cloudProvider")
    (h1 : k ≠ "usecaseCategory") (h2 : k ≠ "searchAttributesAsJson")
    (h3 : k ≠ "metrics") (h4 : k ≠ "platform") (h5 : k ≠ "businessUsage")
    (h6 : k ≠ "modelDescription") (h7 : k ≠ "status") :
    dget (generate_usecase_with_llm_focused_api text cat hint (some p)) k
      = (dget p k).map convFloats := by
  simp only [generate_usecase_with_llm_focused_api]
  rw [enhance_api_frame _ _ _ h1 h2 h3 h4 h5 h6 h7,
    dget_dset_ne _ _ _ _ h0, dget_dset_ne _ _ _ _ h1]

theorem build_item_id (usecase_id nowIso s3url riskframeworkid : String)
    (framework_id : Option String)
    (ai_approach ai_category hash_value document_summary design_doc : String)
    (ud : Item) (hud : dget ud "id" = none) :
    dget (build_usecase_item usecase_id nowIso s3url riskframeworkid framework_id
      ai_approach ai_category hash_value document_summary design_doc ud) "id"
      = some (.vStr usecase_id) := by
  simp only [build_usecase_item]
  rw [dget_foldl_dset_of_ne _ _ _ (fun p hp =>
    dget_none_keys ud "id" hud p (List.mem_of_mem_filter hp))]
  rfl

theorem build_item_api_id (usecase_id nowIso s3url : String)
    (risk_framework_id framework_id : Option String)
    (ai_approach ai_category document_hash document_summary design_doc : String)
    (ud : Item) (hud : dget ud "id" = none) :
    dget (build_usecase_item_api usecase_id nowIso s3url risk_framework_id
      framework_id ai_approach ai_category document_hash document_summary
      design_doc ud) "id" = some (.vStr usecase_id) := by
  simp only [build_usecase_item_api]
  rw [dget_foldl_dset_of_ne _ _ _ (fun p hp =>
    dget_none_keys ud "id" hud p (List.mem_of_mem_filter hp))]
  rfl

theorem build_item_api_documentHash (usecase_id nowIso s3url : String)
    (risk_framework_id framework_id : Option String)
    (ai_approach ai_category document_hash document_summary design_doc : String)
    (ud : Item) (hud : dget ud "documentHash" = none) :
    dget (build_usecase_item_api usecase_id nowIso s3url risk_framework_id
      framework_id ai_approach ai_category document_hash document_summary
      design_doc ud) "documentHash" = some (.vStr document_hash) := by
  simp only [build_usecase_item_api]
  rw [dget_foldl_dset_of_ne _ _ _ (fun p hp =>
    dget_none_keys ud "documentHash" hud p (List.mem_of_mem_filter hp))]
  rfl

theorem process_usecase_request_ok (hash_value s3url rfid : String) (c : ReqCtx)
    (store : List Item) (hc : ctxOk c) :
    ∃ cat item,
      process_usecase_request hash_value s3url rfid c store
        = (.procOk (generate_sequential_id (some (store.map itemIdStr))
            "AI-UC-AST-" c.now) cat, store ++ [item])
      ∧ itemIdStr item
          = generate_sequential_id (some (store.map itemIdStr)) "AI-UC-AST-" c.now := by
  obtain ⟨hb, hscan, ⟨t, ht, htne⟩, ⟨ds, hds⟩, ⟨ss, hss⟩, ⟨p, hp, hperr, hpid⟩⟩ := hc
  have hgerr : dget (generate_usecase_with_llm_focused t
      (determine_ai_category_and_approach_with_llm t c.categoryResp).1 "GCP"
      (some p)) "error" = none := by
    rw [generate_frame _ _ _ _ _ (by decide) (by decide) (by decide) (by decide)
      (by decide) (by decide) (by decide) (by decide) (by decide) (by decide)
      (by decide) (by decide), hperr]
    rfl
  have hgid : dget (generate_usecase_with_llm_focused t
      (determine_ai_category_and_approach_with_llm t c.categoryResp).1 "GCP"
      (some p)) "id" = none := by
    rw [generate_frame _ _ _ _ _ (by decide) (by decide) (by decide) (by decide)
      (by decide) (by decide) (by decide) (by decide) (by decide) (by decide)
      (by decide) (by decide), hpid]
    rfl
  simp only [process_usecase_request, hb, ht, hds, hss, hp, hscan, htne, hgerr,
    not_true, Bool.false_eq_true, if_false, ite_false, if_true, ite_true]
  refine ⟨_, _, rfl, ?_⟩
  unfold itemIdStr
  rw [build_item_id _ _ _ _ _ _ _ _ _ _ _ hgid]

theorem run_ingestions_spec (hash_value s3url rfid : String) (ctxs : List ReqCtx) :
    ∀ (store : List Item) (k : Nat), (∀ c ∈ ctxs, ctxOk c) →
    maxSuffix "AI-UC-AST-" (store.map itemIdStr) = k →
    run_ingestions hash_value s3url rfid ctxs store
      = (List.range ctxs.length).map (fun i => "AI-UC-AST-" ++ pad3 (k + 1 + i)) := by
  induction ctxs with
  | nil => intro store k _ _; rfl
  | cons c cs ih =>
    intro store k hok hmax
    obtain ⟨cat, item, heq, hid⟩ :=
      process_usecase_request_ok hash_value s3url rfid c store
        (hok c (List.mem_cons_self c cs))
    have huid : generate_sequential_id (some (store.map itemIdStr)) "AI-UC-AST-" c.now
        = "AI-UC-AST-" ++ pad3 (k + 1) := by
      show "AI-UC-AST-" ++ pad3 (scanMaxNum "AI-UC-AST-" (store.map itemIdStr) + 1)
        = "AI-UC-AST-" ++ pad3 (k + 1)
      rw [scanMax_eq_maxSuffix, hmax]
    have hmax' : maxSuffix "AI-UC-AST-" ((store ++ [item]).map itemIdStr) = k + 1 := by
      rw [List.map_append, List.map_cons, List.map_nil, hid, huid,
        maxSuffix_append_parsed _ _ _ _ (parse_suffix_append_pad3 _ _), hmax]
      exact Nat.max_eq_right (Nat.le_succ k)
    simp only [run_ingestions, heq]
    rw [ih (store ++ [item]) (k + 1)
      (fun c' hc' => hok c' (List.mem_cons_of_mem _ hc')) hmax', huid]
    rw [List.length_cons, List.range_succ_eq_map, List.map_cons, List.map_map]
    refine congrArg₂ _ (by rw [Nat.add_zero]) ?_
    refine List.map_congr_left (fun i _ => ?_)
    simp only [Function.comp_apply]
    rw [show k + 1 + 1 + i = k + 1 + Nat.succ i from by omega]

/-- Claim C2: for every store state, `generate_sequential_id` returns the
prefix followed by one plus the maximum unsigned-integer suffix over all
scanned ids beginning with the prefix (non-numeric suffixes skipped, an
empty match set treated as maximum 0, per `maxSuffix`/`parse_suffix`),
zero-padded to a minimum width of 3 digits; and whenever the scan raises, it
instead returns the prefix concatenated with the current Unix timestamp. -/
theorem C2_sequential_id_spec (pfx : String) (ids : List String) (now : Nat) :
    generate_sequential_id (some ids) pfx now = pfx ++ pad3 (maxSuffix pfx ids + 1)
    ∧ 3 ≤ (pad3 (maxSuffix pfx ids + 1)).data.length
    ∧ generate_sequential_id none pfx now = pfx ++ natRepr now := by
  refine ⟨?_, ?_, rfl⟩
  · show pfx ++ pad3 (scanMaxNum pfx ids + 1) = _
    rw [scanMax_eq_maxSuffix]
  · show 3 ≤ (List.replicate (3 - (natDigits (maxSuffix pfx ids + 1)).length) '0'
      ++ natDigits (maxSuffix pfx ids + 1)).length
    rw [List.length_append, List.length_replicate]
    omega

/-- Claim C3: for every N and every sequence of N successful ingestions
through `process_usecase_request` (success of every external interaction is
`ctxOk`), starting from a store containing no ids under the prefix
`AI-UC-AST-` and with no concurrent writers (the store evolves only by the
pipeline's own writes), the assigned ids are exactly
`AI-UC-AST-` + zero-padded 1 … N (i.e. AI-UC-AST-001 … ), issued in
increasing numeric order. -/
theorem C3_id_monotonicity (ctxs : List ReqCtx) (store0 : List Item)
    (hash_value s3url rfid : String)
    (hok : ∀ c ∈ ctxs, ctxOk c)
    (hempty : ∀ it ∈ store0, ¬ ("AI-UC-AST-".data.isPrefixOf (itemIdStr it).data = true)) :
    run_ingestions hash_value s3url rfid ctxs store0
      = (List.range ctxs.length).map (fun i => "AI-UC-AST-" ++ pad3 (i + 1)) := by
  have hmax0 : maxSuffix "AI-UC-AST-" (store0.map itemIdStr) = 0 := by
    unfold maxSuffix
    have hnil : (store0.map itemIdStr).filterMap (parse_suffix "AI-UC-AST-") = [] := by
      rw [List.filterMap_eq_nil_iff]
      intro s hs
      rw [List.mem_map] at hs
      obtain ⟨it, hit, rfl⟩ := hs
      exact parse_suffix_none_of_not_prefix _ _ (hempty it hit)
    rw [hnil]
    rfl
  rw [run_ingestions_spec hash_value s3url rfid ctxs store0 0 hok hmax0]
  refine List.map_congr_left (fun i _ => ?_)
  rw [show 0 + 1 + i = i + 1 from by omega]

/-- Witness for C3: three successful ingestions against an initially empty
store yield exactly the ids AI-UC-AST-001, AI-UC-AST-002, AI-UC-AST-003 in
that order. -/
theorem C3_id_monotonicity_witness :
    (∀ c ∈ List.replicate 3
        (⟨true, some "predict churn", some "design", some "summary", none,
          some [], some "fw", true, 0, "T0"⟩ : ReqCtx), ctxOk c)
    ∧ (∀ it ∈ ([] : List Item),
        ¬ ("AI-UC-AST-".data.isPrefixOf (itemIdStr it).data = true))
    ∧ run_ingestions "h1" "s3://bucket/k" ""
        (List.replicate 3
          (⟨true, some "predict churn", some "design", some "summary", none,
            some [], some "fw", true, 0, "T0"⟩ : ReqCtx)) []
        = ["AI-UC-AST-001", "AI-UC-AST-002", "AI-UC-AST-003"] := by
  have hok : ∀ c ∈ List.replicate 3
      (⟨true, some "predict churn", some "design", some "summary", none,
        some [], some "fw", true, 0, "T0"⟩ : ReqCtx), ctxOk c := by
    intro c hc
    rw [List.eq_of_mem_replicate hc]
    exact ⟨rfl, rfl, ⟨_, rfl, rfl⟩, ⟨_, rfl⟩, ⟨_, rfl⟩, ⟨_, rfl, rfl, rfl⟩⟩
  have hemp : ∀ it ∈ ([] : List Item),
      ¬ ("AI-UC-AST-".data.isPrefixOf (itemIdStr it).data = true) := by
    intro it hit
    exact absurd hit (List.not_mem_nil it)
  refine ⟨hok, hemp, ?_⟩
  rw [C3_id_monotonicity _ _ "h1" "s3://bucket/k" "" hok hemp]
  rfl

theorem process_document_upload_ok (c : UpCtx) (H : String → String)
    (cid fn : String) (rfo : Option String) (store : List Item) (raw : String)
    (hc : upOk c) (hraw : c.rawText = some raw)
    (htext : (normalize_text raw == "") = false)
    (hdup : c.dedupScanOk = false
      ∨ ∀ it ∈ store, itemHashMatches it (content_hash H raw) = false) :
    ∃ uid item,
      process_document_upload c H cid fn rfo store
        = (⟨true, "Document processed successfully", none, some uid,
            some ((determine_ai_category_and_approach_with_llm
              (normalize_text raw) c.categoryResp).1),
            some (content_hash H raw)⟩, store ++ [item])
      ∧ uid = generate_sequential_id (some (store.map itemIdStr)) "AI-UC-AST-" c.now
      ∧ dget item "documentHash" = some (.vStr (content_hash H raw))
      ∧ dget item "id" = some (.vStr uid) := by
  obtain ⟨hft, hscan, ⟨ss, hss⟩, ⟨ds, hds2⟩, ⟨p, hp, hperr, hpid, hphash⟩⟩ := hc
  have hgerr : dget (generate_usecase_with_llm_focused_api (normalize_text raw)
      (determine_ai_category_and_approach_with_llm (normalize_text raw)
        c.categoryResp).1 "GCP" (some p)) "error" = none := by
    rw [generate_api_frame _ _ _ _ _ (by decide) (by decide) (by decide) (by decide)
      (by decide) (by decide) (by decide) (by decide), hperr]
    rfl
  have hgid : dget (generate_usecase_with_llm_focused_api (normalize_text raw)
      (determine_ai_category_and_approach_with_llm (normalize_text raw)
        c.categoryResp).1 "GCP" (some p)) "id" = none := by
    rw [generate_api_frame _ _ _ _ _ (by decide) (by decide) (by decide) (by decide)
      (by decide) (by decide) (by decide) (by decide), hpid]
    rfl
  have hghash : dget (generate_usecase_with_llm_focused_api (normalize_text raw)
      (determine_ai_category_and_approach_with_llm (normalize_text raw)
        c.categoryResp).1 "GCP" (some p)) "documentHash" = none := by
    rw [generate_api_frame _ _ _ _ _ (by decide) (by decide) (by decide) (by decide)
      (by decide) (by decide) (by decide) (by decide), hphash]
    rfl
  have hdnone : (if c.dedupScanOk then
      match store.filter (fun it => itemHashMatches it (content_hash H raw)) with
      | [] => none
      | it :: _ =>
        (dget it "id").map (fun v => "Document already exists with ID: " ++ pyStr v)
      else none) = none := by
    rcases hdup with hdc | hnm
    · rw [hdc]
      rfl
    · have hfil : store.filter (fun it => itemHashMatches it (content_hash H raw))
          = [] := by
        rw [List.filter_eq_nil_iff]
        intro it hit
        rw [hnm it hit]
        simp
      rw [hfil]
      by_cases hdc : c.dedupScanOk <;> simp [hdc]
  refine ⟨generate_sequential_id (some (store.map itemIdStr)) "AI-UC-AST-" c.now,
    build_usecase_item_api
      (generate_sequential_id (some (store.map itemIdStr)) "AI-UC-AST-" c.now)
      c.nowIso
      ("s3://your-bucket/" ++ cid ++ "/" ++ content_hash H raw ++ "/" ++ fn)
      rfo c.frameworkId
      (determine_ai_category_and_approach_with_llm (normalize_text raw)
        c.categoryResp).2
      (determine_ai_category_and_approach_with_llm (normalize_text raw)
        c.categoryResp).1
      (content_hash H raw) ss ds
      (generate_usecase_with_llm_focused_api (normalize_text raw)
        (determine_ai_category_and_approach_with_llm (normalize_text raw)
          c.categoryResp).1 "GCP" (some p)),
    ?_, rfl, ?_, ?_⟩
  · simp only [process_document_upload, hft, hraw, htext, hdnone, hss, hds2, hp,
      hscan, hgerr, Bool.false_eq_true, if_false, ite_false, if_true, ite_true]
  · exact build_item_api_documentHash _ _ _ _ _ _ _ _ _ _ _ hghash
  · exact build_item_api_id _ _ _ _ _ _ _ _ _ _ _ hgid

theorem process_document_upload_duplicate (c : UpCtx) (H : String → String)
    (cid fn : String) (rfo : Option String) (store : List Item) (raw uid : String)
    (it : Item) (rest : List Item)
    (hft : (c.fileType == "UNKNOWN") = false) (hraw : c.rawText = some raw)
    (htext : (normalize_text raw == "") = false) (hdc : c.dedupScanOk = true)
    (hfil : store.filter (fun x => itemHashMatches x (content_hash H raw))
      = it :: rest)
    (hid : dget it "id" = some (.vStr uid)) :
    process_document_upload c H cid fn rfo store
      = (pduFail ("Document already exists with ID: " ++ uid)
          "Duplicate document detected", store) := by
  simp only [process_document_upload, hft, hraw, htext, hdc, hfil, hid,
    Bool.false_eq_true, if_false, ite_false, if_true, ite_true, Option.map_some',
    pyStr]

/-- Claim C1 counterexample: through the hash + S3-URL ingestion entry point
(`process_usecase_request`), ingesting the same document (same caller-supplied
hash, same S3 URL, same extracted text) twice for the same tenant SUCCEEDS on
the second call as well — it is assigned the next sequential id instead of
failing pre-write with a DuplicateDocument error, because this entry point
performs no duplicate check at all. -/
theorem C1_dedup_counterexample :
    (process_usecase_request "h1" "s3://b/k" ""
      ⟨true, some "doc text", some "d", some "s", none, some [], some "fw",
        true, 0, "T"⟩ []).1
      = ProcResult.procOk "AI-UC-AST-001" "AI Workflow Agents"
    ∧ (process_usecase_request "h1" "s3://b/k" ""
        ⟨true, some "doc text", some "d", some "s", none, some [], some "fw",
          true, 0, "T"⟩
        ((process_usecase_request "h1" "s3://b/k" ""
          ⟨true, some "doc text", some "d", some "s", none, some [], some "fw",
            true, 0, "T"⟩ []).2)).1
      = ProcResult.procOk "AI-UC-AST-002" "AI Workflow Agents" :=
  ⟨rfl, rfl⟩

/-- Claim C1 (amended): deduplication exists only on the raw-upload entry
point.  (1) Through `process_document_upload`, ingesting the same document
bytes twice for the same tenant succeeds on the first call and fails
PRE-WRITE on the second with a message referencing the id assigned by the
first call, the store left unchanged.  (2) The duplicate check returns true
iff at least one stored item's `documentHash` equals the (non-empty) content
hash, and (3) a failed scan is reported as "not a duplicate".  (4) Inside
the upload pipeline a failed duplicate-check scan likewise lets the
ingestion proceed (availability over strict prevention).  (5) The hash +
S3-URL entry point (`process_usecase_request`) performs no duplicate check:
every call whose external interactions succeed succeeds, whatever the store
already holds. -/
theorem C1_dedup_amended :
    (∀ (c1 c2 : UpCtx) (H : String → String) (cid fn : String)
       (rfo : Option String) (store : List Item) (raw : String),
       upOk c1 → c1.rawText = some raw → (normalize_text raw == "") = false →
       (∀ it ∈ store, itemHashMatches it (content_hash H raw) = false) →
       c2.rawText = some raw → c2.fileType = c1.fileType → c2.dedupScanOk = true →
       ∃ uid item,
         process_document_upload c1 H cid fn rfo store
           = (⟨true, "Document processed successfully", none, some uid,
               some ((determine_ai_category_and_approach_with_llm
                 (normalize_text raw) c1.categoryResp).1),
               some (content_hash H raw)⟩, store ++ [item])
         ∧ process_document_upload c2 H cid fn rfo (store ++ [item])
             = (pduFail ("Document already exists with ID: " ++ uid)
                 "Duplicate document detected", store ++ [item]))
    ∧ (∀ (h : String) (store : List Item), h ≠ "" →
        (is_duplicate_document_hash h
            (some (store.filter (fun it => itemHashMatches it h))) = true
          ↔ ∃ it ∈ store, itemHashMatches it h = true))
    ∧ (∀ h : String, is_duplicate_document_hash h none = false)
    ∧ (∀ (c : UpCtx) (H : String → String) (cid fn : String)
        (rfo : Option String) (store : List Item) (raw : String),
        upOk c → c.rawText = some raw → (normalize_text raw == "") = false →
        c.dedupScanOk = false →
        ∃ uid item, process_document_upload c H cid fn rfo store
          = (⟨true, "Document processed successfully", none, some uid,
              some ((determine_ai_category_and_approach_with_llm
                (normalize_text raw) c.categoryResp).1),
              some (content_hash H raw)⟩, store ++ [item]))
    ∧ (∀ (hv s3url rfid : String) (c : ReqCtx) (store : List Item),
        ctxOk c → ∃ uid cat,
          (process_usecase_request hv s3url rfid c store).1
            = ProcResult.procOk uid cat) := by
  refine ⟨?_, ?_, ?_, ?_, ?_⟩
  · intro c1 c2 H cid fn rfo store raw h1 hraw1 htext hnm hraw2 hfc2 hdc2
    obtain ⟨uid, item, heq, hud, hdoc, hidp⟩ :=
      process_document_upload_ok c1 H cid fn rfo store raw h1 hraw1 htext
        (Or.inr hnm)
    have hmatch : itemHashMatches item (content_hash H raw) = true := by
      unfold itemHashMatches
      rw [hdoc]
      simp
    have hfil : (store ++ [item]).filter
        (fun x => itemHashMatches x (content_hash H raw)) = item :: [] := by
      rw [List.filter_append]
      have h0 : store.filter (fun x => itemHashMatches x (content_hash H raw))
          = [] := by
        rw [List.filter_eq_nil_iff]
        intro x hx
        rw [hnm x hx]
        simp
      rw [h0, List.filter_cons, if_pos hmatch, List.filter_nil]
      rfl
    have hft2 : (c2.fileType == "UNKNOWN") = false := by
      rw [hfc2]
      exact h1.1
    exact ⟨uid, item, heq,
      process_document_upload_duplicate c2 H cid fn rfo (store ++ [item]) raw uid
        item [] hft2 hraw2 htext hdc2 hfil hidp⟩
  · intro h store hne
    unfold is_duplicate_document_hash
    rw [if_neg (by simp [hne])]
    simp [List.isEmpty_iff, List.filter_eq_nil_iff]
  · intro h
    unfold is_duplicate_document_hash
    by_cases hh : (h == "") = true <;> simp [hh]
  · intro c H cid fn rfo store raw hc hraw htext hdc
    obtain ⟨uid, item, heq, _, _, _⟩ :=
      process_document_upload_ok c H cid fn rfo store raw hc hraw htext
        (Or.inl hdc)
    exact ⟨uid, item, heq⟩
  · intro hv s3url rfid c store hc
    obtain ⟨cat, item, heq, _⟩ := process_usecase_request_ok hv s3url rfid c store hc
    exact ⟨_, cat, by rw [heq]⟩

/-- Witness for the amended C1: a concrete TXT document ingested twice
through the upload entry point — first call succeeds, second is rejected
pre-write naming the first call's id. -/
theorem C1_dedup_amended_witness :
    ∃ uid item,
      process_document_upload
        (⟨"TXT", some "agent doc", some "fw", true, some "summ", none,
          some "design", some [], true, 0, "T0"⟩ : UpCtx)
        (fun s => "SHA" ++ s) "cid" "f.txt" none []
        = (⟨true, "Document processed successfully", none, some uid,
            some ((determine_ai_category_and_approach_with_llm
              (normalize_text "agent doc") none).1),
            some (content_hash (fun s => "SHA" ++ s) "agent doc")⟩, [] ++ [item])
      ∧ process_document_upload
          (⟨"TXT", some "agent doc", some "fw", true, some "summ", none,
            some "design", some [], true, 0, "T0"⟩ : UpCtx)
          (fun s => "SHA" ++ s) "cid" "f.txt" none ([] ++ [item])
          = (pduFail ("Document already exists with ID: " ++ uid)
              "Duplicate document detected", [] ++ [item]) :=
  C1_dedup_amended.1
    (⟨"TXT", some "agent doc", some "fw", true, some "summ", none,
      some "design", some [], true, 0, "T0"⟩ : UpCtx)
    (⟨"TXT", some "agent doc", some "fw", true, some "summ", none,
      some "design", some [], true, 0, "T0"⟩ : UpCtx)
    (fun s => "SHA" ++ s) "cid" "f.txt" none [] "agent doc"
    ⟨rfl, rfl, ⟨_, rfl⟩, ⟨_, rfl⟩, ⟨[], rfl, rfl, rfl, rfl⟩⟩ rfl rfl
    (fun it hit => absurd hit (List.not_mem_nil it)) rfl rfl rfl

/-- Claim C4: the classifier is total — for every input text (and every
LLM-gateway outcome) it returns one of the three categories without raising;
when the gateway fails it falls back to keyword scoring in which the
category with the strictly highest of the three keyword-occurrence counts
wins and ties or all-zero scores default to "AI Workflow Agents"; with the
gateway always failing, "predict customer churn using regression" is
classified Machine Learning and the empty string AI Workflow Agents. -/
theorem C4_classifier_totality :
    (∀ (text : String) (llm : Option String),
      (determine_ai_category_and_approach_with_llm text llm).1
        ∈ ["Machine Learning", "AI Workflow Agents", "Agentic AI"])
    ∧ (∀ text : String,
        (determine_ai_category_and_approach_with_llm text none).1
          = determine_ai_category_based_on_data_fallback text)
    ∧ (∀ text : String,
        (keyword_score ml_keywords (pyLower text)
            > keyword_score workflow_keywords (pyLower text)
          ∧ keyword_score ml_keywords (pyLower text)
            > keyword_score agentic_keywords (pyLower text)
          → determine_ai_category_based_on_data_fallback text = "Machine Learning")
        ∧ (keyword_score workflow_keywords (pyLower text)
            > keyword_score ml_keywords (pyLower text)
          ∧ keyword_score workflow_keywords (pyLower text)
            > keyword_score agentic_keywords (pyLower text)
          → determine_ai_category_based_on_data_fallback text
              = "AI Workflow Agents")
        ∧ (keyword_score agentic_keywords (pyLower text)
            > keyword_score ml_keywords (pyLower text)
          ∧ keyword_score agentic_keywords (pyLower text)
            > keyword_score workflow_keywords (pyLower text)
          → determine_ai_category_based_on_data_fallback text = "Agentic AI")
        ∧ (¬ (keyword_score ml_keywords (pyLower text)
              > keyword_score workflow_keywords (pyLower text)
            ∧ keyword_score ml_keywords (pyLower text)
              > keyword_score agentic_keywords (pyLower text))
          → ¬ (keyword_score workflow_keywords (pyLower text)
              > keyword_score ml_keywords (pyLower text)
            ∧ keyword_score workflow_keywords (pyLower text)
              > keyword_score agentic_keywords (pyLower text))
          → ¬ (keyword_score agentic_keywords (pyLower text)
              > keyword_score ml_keywords (pyLower text)
            ∧ keyword_score agentic_keywords (pyLower text)
              > keyword_score workflow_keywords (pyLower text))
          → determine_ai_category_based_on_data_fallback text
              = "AI Workflow Agents"))
    ∧ (determine_ai_category_and_approach_with_llm
        "predict customer churn using regression" none).1 = "Machine Learning"
    ∧ (determine_ai_category_and_approach_with_llm "" none).1
        = "AI Workflow Agents" := by
  refine ⟨?_, fun _ => rfl, ?_, by decide, by decide⟩
  · intro text llm
    cases llm with
    | some r =>
      show parse_category r ∈ _
      unfold parse_category
      split
      · decide
      · split
        · decide
        · split <;> decide
    | none =>
      show determine_ai_category_based_on_data_fallback text ∈ _
      simp only [determine_ai_category_based_on_data_fallback]
      split
      · decide
      · split
        · decide
        · split <;> decide
  · intro text
    refine ⟨?_, ?_, ?_, ?_⟩
    · intro h
      simp only [determine_ai_category_based_on_data_fallback]
      rw [if_pos h]
    · intro h
      simp only [determine_ai_category_based_on_data_fallback]
      rw [if_neg (by omega), if_pos h]
    · intro h
      simp only [determine_ai_category_based_on_data_fallback]
      rw [if_neg (by omega), if_neg (by omega), if_pos h]
    · intro h1 h2 h3
      simp only [determine_ai_category_based_on_data_fallback]
      rw [if_neg h1, if_neg h2, if_neg h3]

/-- Witness for C4: the concrete fallback classification — the ML score of
the churn sentence is strictly highest and the hypothesis-guarded branch of
the theorem yields Machine Learning. -/
theorem C4_classifier_totality_witness :
    (keyword_score ml_keywords (pyLower "predict customer churn using regression")
        > keyword_score workflow_keywords
            (pyLower "predict customer churn using regression")
      ∧ keyword_score ml_keywords (pyLower "predict customer churn using regression")
        > keyword_score agentic_keywords
            (pyLower "predict customer churn using regression"))
    ∧ determine_ai_category_based_on_data_fallback
        "predict customer churn using regression" = "Machine Learning" :=
  ⟨by decide,
   (C4_classifier_totality.2.2.1 "predict customer churn using regression").1
     (by decide)⟩

/-- Claim C5: the content hash is the SHA-256 hex digest of the
whitespace-normalised text, so any two input texts with equal normal forms
(equality of `' '.join(text.split())`) hash identically — formatting and
whitespace differences never change the hash. -/
theorem C5_hash_idempotent (H : String → String) (t1 t2 : String)
    (h : normalize_text t1 = normalize_text t2) :
    content_hash H t1 = content_hash H t2 := by
  unfold content_hash
  rw [h]

/-- Witness for C5: two concrete texts differing only in whitespace layout
normalise identically, hence hash identically. -/
theorem C5_hash_idempotent_witness :
    normalize_text "a  b\n c" = normalize_text " a b c "
    ∧ content_hash (fun s => "SHA" ++ s) "a  b\n c"
        = content_hash (fun s => "SHA" ++ s) " a b c " :=
  ⟨rfl, C5_hash_idempotent (fun s => "SHA" ++ s) "a  b\n c" " a b c " rfl⟩

/-- Claim C6: on every successfully generated record (through either
pipeline variant), post-processing forces `usecaseCategory` to the
classifier-determined category, `cloudProvider` to the provider determined
by the document-over-hint rule, and `status` to the literal
"Not yet started", regardless of what the model returned for these
fields. -/
theorem C6_forced_fields (text cat hint : String) (p : Item) :
    (dget (generate_usecase_with_llm_focused text cat hint (some p))
        "usecaseCategory" = some (.vStr cat)
      ∧ dget (generate_usecase_with_llm_focused text cat hint (some p))
          "cloudProvider" = some (.vStr (determine_cloud_provider text hint))
      ∧ dget (generate_usecase_with_llm_focused text cat hint (some p))
          "status" = some (.vStr "Not yet started"))
    ∧ (dget (generate_usecase_with_llm_focused_api text cat hint (some p))
        "usecaseCategory" = some (.vStr cat)
      ∧ dget (generate_usecase_with_llm_focused_api text cat hint (some p))
          "cloudProvider" = some (.vStr (determine_cloud_provider text hint))
      ∧ dget (generate_usecase_with_llm_focused_api text cat hint (some p))
          "status" = some (.vStr "Not yet started")) := by
  refine ⟨⟨?_, ?_, ?_⟩, ⟨?_, ?_, ?_⟩⟩
  · simp only [generate_usecase_with_llm_focused]
    exact enhance_category _ _
  · simp only [generate_usecase_with_llm_focused]
    rw [enhance_frame _ _ _ (by decide) (by decide) (by decide) (by decide)
      (by decide) (by decide) (by decide) (by decide) (by decide) (by decide)
      (by decide), dget_dset_self]
    rfl
  · simp only [generate_usecase_with_llm_focused]
    exact enhance_status _ _
  · simp only [generate_usecase_with_llm_focused_api]
    exact enhance_api_category _ _
  · simp only [generate_usecase_with_llm_focused_api]
    rw [enhance_api_frame _ _ _ (by decide) (by decide) (by decide) (by decide)
      (by decide) (by decide) (by decide), dget_dset_self]
    rfl
  · simp only [generate_usecase_with_llm_focused_api]
    exact enhance_api_status _ _

theorem dset_eq_append (d : Item) (k : String) (v : Val)
    (h : d.any (fun p => p.1 == k) = false) :
    dset d k v = d ++ [(k, v)] := by
  unfold dset
  rw [if_neg (by simp [h])]

theorem dget_isSome_of_any (d : Item) (k : String)
    (h : d.any (fun p => p.1 == k) = true) : (dget d k).isSome = true := by
  induction d with
  | nil => simp at h
  | cons a t ih =>
    simp only [List.any_cons, Bool.or_eq_true] at h
    by_cases pa : (a.1 == k) = true
    · unfold dget
      simp only [List.find?_cons, pa]
      rfl
    · have paf : (a.1 == k) = false := by simpa using pa
      unfold dget at ih ⊢
      simp only [List.find?_cons, paf]
      rcases h with h | h
      · exact absurd h pa
      · exact ih h

theorem addThreshold_result (x m : Val) (hm : addThresholdDefault x = some m) :
    ∃ kvs, m = .vDict kvs ∧ (dget kvs "threshold").isSome = true := by
  cases x with
  | vDict kvs =>
    simp only [addThresholdDefault, Option.some.injEq] at hm
    by_cases hany : kvs.any (fun p => p.1 == "threshold") = true
    · rw [if_pos hany] at hm
      exact ⟨kvs, hm.symm, dget_isSome_of_any _ _ hany⟩
    · rw [if_neg hany] at hm
      have hanyf : kvs.any (fun p => p.1 == "threshold") = false := by
        revert hany
        cases kvs.any (fun p => p.1 == "threshold") <;> simp
      refine ⟨kvs ++ [("threshold", .vInt 80)], hm.symm, ?_⟩
      rw [← dset_eq_append _ _ _ hanyf, dget_dset_self]
      rfl
  | vStr s => simp [addThresholdDefault] at hm
  | vInt n => simp [addThresholdDefault] at hm
  | vFloat q => simp [addThresholdDefault] at hm
  | vDec q => simp [addThresholdDefault] at hm
  | vBool b => simp [addThresholdDefault] at hm
  | vNull => simp [addThresholdDefault] at hm
  | vList xs => simp [addThresholdDefault] at hm

/-- Claim C7 counterexample: in the hash pipeline's enhancement, a model
response whose `metrics` is the non-empty list `["invalid"]` (a non-empty
list that contains no objects) yields a final record whose `metrics` field
is the EMPTY list — neither the supplied metrics nor the category default
set — refuting "the final record's metrics field is a non-empty list". -/
theorem C7_metrics_counterexample :
    dget (enhance_usecase_data [("metrics", Val.vList [Val.vStr "invalid"])]
      "Agentic AI") "metrics" = some (Val.vList []) := rfl

/-- Claim C7 (amended): in the hash pipeline, the category default metric
set is installed iff the supplied `metrics` is missing, an empty list, or
not a list; a supplied NON-EMPTY list is filtered entry-wise — dict entries
lacking a `threshold` key gain the default 80, non-dict entries are dropped
(so the result can be empty) — and every surviving entry is a dict carrying
a threshold.  For category Agentic AI the default set is the fixed 5-item
set with pre-defined thresholds (4 items in the API variant).  In the API
pipeline the default set is installed under the same condition, but a
supplied non-empty list is passed through with its entries UNCHANGED (no
threshold defaulting). -/
theorem C7_metrics_amended :
    (∀ (d : Item) (cat : String), dget d "metrics" = none →
      dget (enhance_usecase_data d cat) "metrics"
        = some (.vList (default_metrics cat)))
    ∧ (∀ (d : Item) (cat : String), dget d "metrics" = some (.vList []) →
      dget (enhance_usecase_data d cat) "metrics"
        = some (.vList (default_metrics cat)))
    ∧ (∀ (d : Item) (cat : String) (v : Val), dget d "metrics" = some v →
      (∀ xs, v ≠ .vList xs) →
      dget (enhance_usecase_data d cat) "metrics"
        = some (.vList (default_metrics cat)))
    ∧ (∀ (d : Item) (cat : String) (xs : List Val),
      dget d "metrics" = some (.vList xs) → xs.isEmpty = false →
      dget (enhance_usecase_data d cat) "metrics"
        = some (.vList ((convList xs).filterMap addThresholdDefault)))
    ∧ (∀ (xs : List Val) (m : Val), m ∈ (convList xs).filterMap addThresholdDefault →
      ∃ kvs, m = .vDict kvs ∧ (dget kvs "threshold").isSome = true)
    ∧ (∀ kvs : Item, kvs.any (fun p => p.1 == "threshold") = false →
      addThresholdDefault (.vDict kvs)
        = some (.vDict (kvs ++ [("threshold", .vInt 80)])))
    ∧ ((default_metrics "Agentic AI").length = 5
      ∧ ∀ m ∈ default_metrics "Agentic AI",
        (match m with
         | .vDict kvs => (dget kvs "threshold").isSome
         | _ => false) = true)
    ∧ (∀ (d : Item) (cat : String) (xs : List Val),
      dget d "metrics" = some (.vList xs) → xs.isEmpty = false →
      dget (enhance_usecase_data_api d cat) "metrics"
        = some (.vList (convList xs)))
    ∧ (∀ (d : Item) (cat : String), dget d "metrics" = none →
      dget (enhance_usecase_data_api d cat) "metrics"
        = some (.vList (default_metrics_api cat)))
    ∧ (default_metrics_api "Agentic AI").length = 4 := by
  refine ⟨?_, ?_, ?_, ?_, ?_, ?_, ⟨rfl, by decide⟩, ?_, ?_, rfl⟩
  · intro d cat h
    rw [enhance_metrics, h]
    rfl
  · intro d cat h
    rw [enhance_metrics, h]
    simp [final_metrics, convFloats, convList]
  · intro d cat v h hv
    rw [enhance_metrics, h]
    cases v with
    | vList xs => exact absurd rfl (hv xs)
    | vStr s => simp [final_metrics, convFloats]
    | vInt n => simp [final_metrics, convFloats]
    | vFloat q => simp [final_metrics, convFloats]
    | vDec q => simp [final_metrics, convFloats]
    | vBool b => simp [final_metrics, convFloats]
    | vNull => simp [final_metrics, convFloats]
    | vDict kvs => simp [final_metrics, convFloats]
  · intro d cat xs h hne
    rw [enhance_metrics, h]
    simp [final_metrics, convFloats, convList_isEmpty, hne]
  · intro xs m hm
    rw [List.mem_filterMap] at hm
    obtain ⟨x, _, hax⟩ := hm
    exact addThreshold_result x m hax
  · intro kvs h
    show some (Val.vDict (if (kvs.any fun p => p.1 == "threshold") = true then kvs
      else kvs ++ [("threshold", Val.vInt 80)])) = _
    rw [if_neg (by simp [h])]
  · exact fun d cat xs h hne => enhance_api_metrics_kept d cat xs h hne
  · exact fun d cat h => enhance_api_metrics_default_none d cat h

/-- Witness for the amended C7: a record with no `metrics` key gets exactly
the fixed Agentic-AI default metric set. -/
theorem C7_metrics_amended_witness :
    dget ([("x", Val.vInt 1)] : Item) "metrics" = none
    ∧ dget (enhance_usecase_data [("x", Val.vInt 1)] "Agentic AI") "metrics"
        = some (.vList (default_metrics "Agentic AI")) :=
  ⟨rfl, C7_metrics_amended.1 [("x", Val.vInt 1)] "Agentic AI" rfl⟩

theorem find?_eq_head_filter {α : Type} (l : List α) (p : α → Bool) :
    l.find? p = (l.filter p).head? := by
  induction l with
  | nil => rfl
  | cons a t ih =>
    by_cases pa : p a = true
    · simp [List.find?_cons, pa, List.filter_cons]
    · have paf : p a = false := by simpa using pa
      simp only [List.find?_cons, paf, List.filter_cons, if_neg pa]
      exact ih

/-- Claim C8 counterexample: in a document whose text mentions
"Google Cloud Platform" BEFORE "AWS", the first provider name occurring in
the text is Google Cloud Platform (canonically GCP), but the code scans its
fixed provider list (AWS first) and returns "AWS" — so the effective
provider is NOT the first provider name occurring in the text. -/
theorem C8_provider_counterexample :
    determine_cloud_provider
      "Our stack uses Google Cloud Platform services with optional AWS nodes"
      "Azure" = "AWS"
    ∧ first_occurring_provider
        "Our stack uses Google Cloud Platform services with optional AWS nodes"
        = some "GCP" :=
  ⟨rfl, rfl⟩

/-- Claim C8 (amended): the effective provider is the FIRST ENTRY OF THE
FIXED PRIORITY LIST (AWS, Azure, GCP, Google Cloud, Google Cloud Platform,
Amazon Web Services, Microsoft Azure) that occurs case-insensitively in the
text — not the earliest occurrence by text position — normalised to its
canonical alias; the caller-supplied hint is used if and only if no known
provider name occurs in the text (when one occurs, the result does not
depend on the hint at all). -/
theorem C8_provider_amended :
    (∀ text hint : String,
      determine_cloud_provider text hint
        = match (cloud_providers.filter
            (fun p => pyIn (pyLower p) (pyLower text))).head? with
          | some p => normalize_provider p
          | none => hint)
    ∧ (∀ text hint : String,
      (∀ p ∈ cloud_providers, pyIn (pyLower p) (pyLower text) = false) →
      determine_cloud_provider text hint = hint)
    ∧ (∀ text : String,
      (∃ p ∈ cloud_providers, pyIn (pyLower p) (pyLower text) = true) →
      ∀ h1 h2 : String,
        determine_cloud_provider text h1 = determine_cloud_provider text h2) := by
  refine ⟨?_, ?_, ?_⟩
  · intro text hint
    unfold determine_cloud_provider
    rw [find?_eq_head_filter]
  · intro text hint h
    unfold determine_cloud_provider
    have : cloud_providers.find? (fun p => pyIn (pyLower p) (pyLower text)) = none := by
      rw [List.find?_eq_none]
      intro p hp
      rw [h p hp]
      simp
    rw [this]
  · intro text hex h1 h2
    unfold determine_cloud_provider
    rcases hf : cloud_providers.find? (fun p => pyIn (pyLower p) (pyLower text)) with _ | q
    · obtain ⟨p, hp, hocc⟩ := hex
      rw [List.find?_eq_none] at hf
      exact absurd hocc (hf p hp)
    · rfl

/-- Witness for the amended C8: a text naming no provider falls back to the
caller-supplied hint. -/
theorem C8_provider_amended_witness :
    (∀ p ∈ cloud_providers,
      pyIn (pyLower p) (pyLower "an on-premise deployment") = false)
    ∧ determine_cloud_provider "an on-premise deployment" "Azure" = "Azure" :=
  ⟨by decide, C8_provider_amended.2.1 "an on-premise deployment" "Azure" (by decide)⟩

/-- Claim C9 counterexample: through the hash + S3-URL handler, an ingestion
that FAILS (here: text extraction fails, an internal failure the claim maps
to 500) is still answered with HTTP 200 — the handler never inspects the
processing result when choosing the status code, so "200 iff success" is
false. -/
theorem C9_status_counterexample :
    (process_usecase_request "h1" "s3://b/k" ""
      ⟨true, none, some "d", some "s", none, some [], some "fw", true, 0, "T"⟩
      []).1 = ProcResult.procError "Failed to extract text or empty document"
    ∧ lambda_handler_hash true "h1" "s3://b/k" "cid"
        ((process_usecase_request "h1" "s3://b/k" ""
          ⟨true, none, some "d", some "s", none, some [], some "fw", true, 0, "T"⟩
          []).1) = 200 :=
  ⟨rfl, rfl⟩

/-- Claim C9 (amended): no path lets an exception escape either handler —
every response status is one of 200/400/500.  The UPLOAD handler honours
the claimed mapping on its upload route: 500 when the body fails to
parse/decode, 400 when `file_content` or `cloud_id` is missing, and
otherwise 200 exactly when `process_document_upload` reported success (so
validation failures and duplicates, which it reports with `success: false`,
get 400).  The HASH handler however returns 400 only for a missing/falsy
`hash`/`s3url`/`cloudId`, 500 only when the body fails to parse, and 200
for EVERY processing outcome — success or failure alike. -/
theorem C9_status_amended :
    (∀ (bodyOk : Bool) (h u c : String) (r : ProcResult),
      lambda_handler_hash bodyOk h u c r ∈ [200, 400, 500])
    ∧ (∀ (h u c : String) (r : ProcResult),
      lambda_handler_hash false h u c r = 500)
    ∧ (∀ (h u c : String) (r : ProcResult), (h = "" ∨ u = "" ∨ c = "") →
      lambda_handler_hash true h u c r = 400)
    ∧ (∀ (h u c : String) (r r' : ProcResult), h ≠ "" → u ≠ "" → c ≠ "" →
      lambda_handler_hash true h u c r = 200
        ∧ lambda_handler_hash true h u c r = lambda_handler_hash true h u c r')
    ∧ (∀ (path m : String) (bodyOk f cid : Bool) (up : PDUResult),
      lambda_handler_api path m bodyOk f cid up ∈ [200, 400, 500])
    ∧ (∀ (f cid : Bool) (up : PDUResult),
      lambda_handler_api "/upload-document" "POST" false f cid up = 500)
    ∧ (∀ (cid : Bool) (up : PDUResult),
      lambda_handler_api "/upload-document" "POST" true false cid up = 400)
    ∧ (∀ up : PDUResult,
      lambda_handler_api "/upload-document" "POST" true true false up = 400)
    ∧ (∀ up : PDUResult,
      (lambda_handler_api "/upload-document" "POST" true true true up = 200
        ↔ up.success = true)
      ∧ (lambda_handler_api "/upload-document" "POST" true true true up = 400
        ↔ up.success = false)) := by
  refine ⟨?_, ?_, ?_, ?_, ?_, ?_, ?_, ?_, ?_⟩
  · intro bodyOk h u c r
    unfold lambda_handler_hash
    split
    · decide
    · split
      · decide
      · cases r <;> exact (show (200 : Nat) ∈ [200, 400, 500] by decide)
  · intro h u c r
    rfl
  · intro h u c r hor
    unfold lambda_handler_hash
    rw [if_neg (by simp)]
    rw [if_pos]
    rcases hor with h0 | h0 | h0 <;> simp [h0]
  · intro h u c r r' hh hu hc
    have hcond : (h == "" || u == "" || c == "") = false := by
      simp [hh, hu, hc]
    have h200 : ∀ r0 : ProcResult, lambda_handler_hash true h u c r0 = 200 := by
      intro r0
      unfold lambda_handler_hash
      rw [if_neg (by simp), if_neg (by simp [hcond])]
      cases r0 <;> rfl
    exact ⟨h200 r, (h200 r).trans (h200 r').symm⟩
  · intro path m bodyOk f cid up
    unfold lambda_handler_api
    split
    · decide
    · split
      · split
        · decide
        · split
          · decide
          · split
            · decide
            · split <;> decide
      · split <;> decide
  · intro f cid up
    rfl
  · intro cid up
    rfl
  · intro up
    rfl
  · intro up
    unfold lambda_handler_api
    simp only [if_neg (by decide : ¬ (("/upload-document" == "/health")
        && ("POST" == "GET") = true)),
      if_pos (by decide : (("/upload-document" == "/upload-document")
        && ("POST" == "POST")) = true)]
    rw [if_neg (by simp), if_neg (by simp), if_neg (by simp)]
    cases hs : up.success <;> simp [hs]

/-- Witness for the amended C9: with all required fields present, the hash
handler answers 200 both for a successful and for a failed ingestion. -/
theorem C9_status_amended_witness :
    lambda_handler_hash true "h" "u" "c" (ProcResult.procError "boom") = 200
    ∧ lambda_handler_hash true "h" "u" "c" (ProcResult.procError "boom")
        = lambda_handler_hash true "h" "u" "c" (ProcResult.procOk "id" "cat") :=
  C9_status_amended.2.2.2.1 "h" "u" "c" (ProcResult.procError "boom")
    (ProcResult.procOk "id" "cat") (by decide) (by decide) (by decide)

theorem dget_ddel_self (d : Item) (k : String) : dget (ddel d k) k = none := by
  unfold dget ddel
  rw [Option.map_eq_none', List.find?_eq_none]
  intro x hx
  rw [List.mem_filter] at hx
  simpa using hx.2

theorem dget_none_ddel (d : Item) (k f : String) (h : dget d f = none) :
    dget (ddel d k) f = none := by
  unfold dget ddel
  rw [Option.map_eq_none', List.find?_eq_none]
  intro x hx
  rw [List.mem_filter] at hx
  exact dget_none_keys d f h x hx.1

theorem dget_foldl_ddel_none (ks : List String) (d : Item) (f : String)
    (h : dget d f = none) : dget (ks.foldl ddel d) f = none := by
  induction ks generalizing d with
  | nil => exact h
  | cons a t ih => exact ih (ddel d a) (dget_none_ddel d a f h)

theorem dget_foldl_ddel_mem (ks : List String) (d : Item) (f : String)
    (hf : f ∈ ks) : dget (ks.foldl ddel d) f = none := by
  induction ks generalizing d with
  | nil => exact absurd hf (List.not_mem_nil f)
  | cons a t ih =>
    rw [List.foldl_cons]
    by_cases hft : f ∈ t
    · exact ih (ddel d a) hft
    · have hfa : f = a := by
        rcases List.mem_cons.mp hf with h | h
        · exact h
        · exact absurd h hft
      exact dget_foldl_ddel_none t (ddel d a) f (hfa ▸ dget_ddel_self d a)

/-- Claim C10: the record-enhancement step is frame-preserving — every key
other than `usecaseCategory`, `searchAttributesAsJson`, `metrics`,
`platform`, `businessUsage`, `modelDescription` and `status` is carried into
the result with its value unchanged except that float leaves anywhere in the
structure are replaced by the numerically equal decimal values
(`convFloats`); additionally, in the hash-entry pipeline the keys
`processingStatus`, `documentType`, `userId` and `modelProcess` are removed,
while the API-entry enhancement removes nothing. -/
theorem C10_enhancement_frame :
    (∀ (d : Item) (cat k : String),
      k ∉ (["usecaseCategory", "searchAttributesAsJson", "metrics", "platform",
        "businessUsage", "modelDescription", "status", "processingStatus",
        "documentType", "userId", "modelProcess"] : List String) →
      dget (enhance_usecase_data d cat) k = (dget d k).map convFloats)
    ∧ (∀ (d : Item) (cat f : String),
      f ∈ (["processingStatus", "documentType", "userId",
        "modelProcess"] : List String) →
      dget (enhance_usecase_data d cat) f = none)
    ∧ (∀ (d : Item) (cat k : String),
      k ∉ (["usecaseCategory", "searchAttributesAsJson", "metrics", "platform",
        "businessUsage", "modelDescription", "status"] : List String) →
      dget (enhance_usecase_data_api d cat) k = (dget d k).map convFloats) := by
  refine ⟨?_, ?_, ?_⟩
  · intro d cat k hk
    simp only [List.mem_cons, List.not_mem_nil, or_false, not_or] at hk
    obtain ⟨h1, h2, h3, h4, h5, h6, h7, h8, h9, h10, h11⟩ := hk
    exact enhance_frame d cat k h1 h2 h3 h4 h5 h6 h7 h8 h9 h10 h11
  · intro d cat f hf
    simp only [enhance_usecase_data]
    exact dget_foldl_ddel_mem _ _ _ hf
  · intro d cat k hk
    simp only [List.mem_cons, List.not_mem_nil, or_false, not_or] at hk
    obtain ⟨h1, h2, h3, h4, h5, h6, h7⟩ := hk
    exact enhance_api_frame d cat k h1 h2 h3 h4 h5 h6 h7

/-- Witness for C10: a bystander key `department` (holding a float leaf) is
carried through the hash-entry enhancement with only the float-to-decimal
conversion, and `processingStatus` is removed. -/
theorem C10_enhancement_frame_witness :
    dget (enhance_usecase_data
        [("department", Val.vFloat (3 / 2)), ("processingStatus", Val.vStr "x")]
        "Machine Learning") "department" = some (Val.vDec (3 / 2))
    ∧ dget (enhance_usecase_data
        [("department", Val.vFloat (3 / 2)), ("processingStatus", Val.vStr "x")]
        "Machine Learning") "processingStatus" = none := by
  constructor
  · rw [C10_enhancement_frame.1
      [("department", Val.vFloat (3 / 2)), ("processingStatus", Val.vStr "x")]
      "Machine Learning" "department" (by decide)]
    rfl
  · exact C10_enhancement_frame.2.1
      [("department", Val.vFloat (3 / 2)), ("processingStatus", Val.vStr "x")]
      "Machine Learning" "processingStatus" (by decide)
